import Mathlib

/-!
Shallow embedding of the MyGoodMovers voice/text bot's dialogue engine
(src/routes/text_routes.py, src/routes/voice_routes.py, src/models.py).

External collaborators (the OpenAI field extractor, the maps pricing
manager, the FAQ embedding matcher, the email-validator library, the
dateutil fuzzy parser and the wall clock) are modelled as an `Env` of
oracle functions; everything the routes themselves compute is translated
directly from the Python source.  Python strings are Lean `String`s,
nullable columns are `Option`, Python truthiness on strings is `truthy`
(`None` and `""` are both falsy), and SQLAlchemy commits are modelled by
explicit state passing: a handler step maps a database snapshot `Db`
(session row, optional move-detail row, transcript) to a new snapshot.
Float cost values only ever flow from the pricing oracle into columns and
f-strings, so they are modelled as `Int`.
-/

/-- Python `str.strip()`'s whitespace set (the ASCII part). -/
def pyIsSpace (c : Char) : Bool :=
  c == ' ' || c == '\t' || c == '\n' || c == '\r' || c == '\x0b' || c == '\x0c'

/-- Python `str.strip()`: drop leading and trailing whitespace. -/
def pyStrip (s : String) : String :=
  String.mk (((s.data.dropWhile pyIsSpace).reverse.dropWhile pyIsSpace).reverse)

/-- Python `str.lower()` (ASCII letters). -/
def pyLower (s : String) : String :=
  String.mk (s.data.map Char.toLower)

/-- Split a character list at every occurrence of a separator character. -/
def splitOnCharL (sep : Char) : List Char → List (List Char)
  | [] => [[]]
  | c :: rest =>
    let r := splitOnCharL sep rest
    if c = sep then [] :: r
    else
      match r with
      | [] => [[c]]
      | h :: t => (c :: h) :: t

/-- Python `str.split(sep)` for the one-character separators the routes use
(`,`, `@`, `.`): `"".split(sep) = [""]`, separators are not kept. -/
def pySplitChar (sep : Char) (s : String) : List String :=
  (splitOnCharL sep s.data).map String.mk

/-- List-level prefix test. -/
def isPrefixL : List Char → List Char → Bool
  | [], _ => true
  | _ :: _, [] => false
  | a :: as, b :: bs => a == b && isPrefixL as bs

/-- List-level substring occurrence test. -/
def containsL : List Char → List Char → Bool
  | [], needle => needle.isEmpty
  | c :: rest, needle => isPrefixL needle (c :: rest) || containsL rest needle

/-- Python truthiness of a nullable string column: `None` and `""` are falsy. -/
def truthy : Option String → Bool
  | none => false
  | some s => !s.isEmpty

/-- Python `str(x)` / f-string rendering of a nullable numeric column
(`None` renders as "None"). -/
def pyShow : Option Int → String
  | none => "None"
  | some n => toString n

/-- Python f-string rendering of a nullable string column. -/
def pyShowStr : Option String → String
  | none => "None"
  | some s => s

/-- Python `x or dflt` on a nullable string column. -/
def pyOrStr (o : Option String) (dflt : String) : String :=
  if truthy o then o.getD "" else dflt

/-- Python `str.title()` (ASCII letters as the cased characters): a letter is
uppercased when the previous character is not a letter, lowercased otherwise. -/
def pyTitle (s : String) : String :=
  (s.toList.foldl
    (fun (acc : String × Bool) c =>
      ((if acc.2 then acc.1.push c.toLower else acc.1.push c.toUpper), c.isAlpha))
    ("", false)).1

/-- Python `needle in hay` for strings: substring containment. -/
def strContains (hay needle : String) : Bool :=
  containsL hay.data needle.data

/-- Python `html.escape` (routes' `sanitize_input`): the per-character
replacement table; escaping `&` first and the rest afterwards equals one
character-wise pass because no replacement output contains a character that a
later rule rewrites except the leading `&` of an already-finished escape. -/
def escapeChar (c : Char) : String :=
  if c = '&' then "&amp;"
  else if c = '<' then "&lt;"
  else if c = '>' then "&gt;"
  else if c = '"' then "&quot;"
  else if c = '\'' then "&#x27;"
  else String.mk [c]

/-- Translation of `sanitize_input` from both route files. -/
def sanitize_input (s : String) : String :=
  String.join (s.toList.map escapeChar)

/-- The dialogue states of `models.ChatState`. -/
inductive ChatState where
  | INITIAL
  | COLLECTING_MOVE_SIZE
  | COLLECTING_MOVE_DATE
  | COST_ESTIMATED
  | AWAITING_DETAILS
  | AWAITING_NAME
  | AWAITING_CONTACT
  | AWAITING_FINAL_CONFIRMATION
  | MODIFY_DETAILS
  | CONFIRMED
  | AWAITING_ADDITIONAL_SERVICES
  deriving DecidableEq, Repr

/-- The `chat_sessions` row of `models.ChatSession` (the surrogate `id` and
`created_at` timestamp play no role in the dialogue logic and are omitted). -/
structure ChatSession where
  chat_id : String
  username : Option String := none
  contact_no : Option String := none
  move_date : Option String := none
  estimated_cost_min : Option Int := none
  estimated_cost_max : Option Int := none
  confirmed : Bool := false
  is_active : Bool := true
  state : ChatState := ChatState.INITIAL
  deriving DecidableEq, Repr

/-- The `move_details` row of `models.MoveDetail`. -/
structure MoveDetail where
  chat_id : String
  origin : Option String := none
  destination : Option String := none
  move_size : Option String := none
  additional_services : Option String := none
  move_date : Option String := none
  username : Option String := none
  contact_no : Option String := none
  email : Option String := none
  estimated_cost_min : Option Int := none
  estimated_cost_max : Option Int := none
  state : ChatState := ChatState.INITIAL
  deriving DecidableEq, Repr

/-- One transcript row of `models.Message` (timestamps are modelled by list
order: the transcript is append-only). -/
structure Msg where
  sender : String
  message : String
  deriving DecidableEq, Repr

/-- The database snapshot a handler step reads and commits: the session row,
its at-most-one move-detail row, and the ordered transcript. -/
structure Db where
  session : ChatSession
  detail : Option MoveDetail
  messages : List Msg
  deriving DecidableEq, Repr

/-- The schema `parse_move_details_with_openai` normalizes the extraction
oracle's JSON into: each missing key becomes `None` (and the services key
becomes `[]` via `or []`). -/
structure Extracted where
  origin : Option String := none
  destination : Option String := none
  move_size : Option String := none
  move_date : Option String := none
  additional_services : List String := []
  username : Option String := none
  contact_no : Option String := none
  deriving DecidableEq, Repr

/-- A Python `datetime` as far as the routes look at one: calendar date plus
seconds-since-midnight.  `datetime.now().replace(hour=0, minute=0, second=0,
microsecond=0)` is `secs := 0`; `datetime` comparison is lexicographic. -/
structure PyDateTime where
  year : Nat
  month : Nat
  day : Nat
  secs : Nat
  deriving DecidableEq, Repr

/-- Date-only (calendar) strict comparison. -/
def dateLt (a b : PyDateTime) : Bool :=
  if a.year = b.year then
    (if a.month = b.month then decide (a.day < b.day) else decide (a.month < b.month))
  else decide (a.year < b.year)

/-- Full Python `datetime <` comparison: lexicographic on date then time. -/
def dtLt (a b : PyDateTime) : Bool :=
  if a.year = b.year ∧ a.month = b.month ∧ a.day = b.day then decide (a.secs < b.secs)
  else dateLt a b

/-- Zero-padded two-digit rendering (strftime `%m` / `%d`). -/
def pad2 (n : Nat) : String :=
  if n < 10 then "0" ++ toString n else toString n

/-- Zero-padded four-digit rendering (strftime `%Y`). -/
def pad4 (n : Nat) : String :=
  if n < 10 then "000" ++ toString n
  else if n < 100 then "00" ++ toString n
  else if n < 1000 then "0" ++ toString n
  else toString n

/-- strftime `"%Y-%m-%d"`. -/
def formatYMD (d : PyDateTime) : String :=
  pad4 d.year ++ "-" ++ pad2 d.month ++ "-" ++ pad2 d.day

/-- The external collaborators of both route files, as oracle functions:
`extract_fields` is `openai_manager.extract_fields_from_text` already pushed
through `parse_move_details_with_openai`'s normalization; `parse_datetime` is
`dateutil.parser.parse(fuzzy=True)` (`none` = raised exception); `now` is the
wall clock; `estimate_cost` and `get_additional_services_costs` are
`maps_manager` (a `none` distance or a non-tuple second component is the
failure signal, and `get` on the services-cost dict may miss);
`find_best_match` is `faq_manager`; `gpt_reply` is
`openai_manager.get_general_response` fed the transcript-built history;
`email_lib` is the `email_validator` package call (`none` = it raised);
`similarity` is `difflib.SequenceMatcher(...).ratio()`. -/
structure Env where
  extract_fields : String → Extracted
  parse_datetime : String → Option PyDateTime
  now : PyDateTime
  estimate_cost : Option String → Option String → Option String → List String →
    Option String → Option Int × Option (Int × Int)
  get_additional_services_costs : String → Option Int × Option Int
  find_best_match : String → String
  gpt_reply : List Msg → String → String
  email_lib : String → Option String
  similarity : String → String → Rat

/-- Translation of `is_faq_query` (identical in both route files). -/
def is_faq_query (user_text : String) : Bool :=
  ["modify booking", "hidden charge", "refund", "cancel",
   "policy", "charges", "payment", "change booking"].any
    (fun kw => strContains (pyLower user_text) kw)

/-- Shared body of `standardize_date` (the two route files differ only in the
unparseable-input message): fuzzy-parse, reject a datetime before today
(today = now with the time zeroed), else render `"%Y-%m-%d"`. -/
def standardize_date_core (parse_datetime : String → Option PyDateTime)
    (now : PyDateTime) (invalid_msg : String) (date_str : String) :
    Except String String :=
  match parse_datetime date_str with
  | none => Except.error invalid_msg
  | some parsed_date =>
    let today : PyDateTime := { now with secs := 0 }
    if dtLt parsed_date today then
      Except.error "The date you provided is in the past. Please provide a future date."
    else
      Except.ok (formatYMD parsed_date)

/-- `standardize_date` of src/routes/text_routes.py. -/
def text_standardize_date (parse_datetime : String → Option PyDateTime)
    (now : PyDateTime) (date_str : String) : Except String String :=
  standardize_date_core parse_datetime now
    "Invalid date format. Please provide valid date." date_str

/-- `standardize_date` of src/routes/voice_routes.py. -/
def voice_standardize_date (parse_datetime : String → Option PyDateTime)
    (now : PyDateTime) (date_str : String) : Except String String :=
  standardize_date_core parse_datetime now
    "Invalid date format. Please provide a valid date." date_str

/-- Translation of `validate_and_normalize_contact_number` from
src/routes/text_routes.py: strip every non-digit (`re.sub(r"\D", "", c)`) and
accept exactly ten remaining digits. -/
def validate_and_normalize_contact_number (contact : String) : Option String :=
  let digits := String.mk (contact.toList.filter Char.isDigit)
  if digits.length = 10 then some digits else none

/-- Translation of `validate_email` from src/routes/text_routes.py on top of
the `email_lib` oracle.  The library guarantees a normalized address with a
single `@`; a shape it cannot produce is mapped to rejection. -/
def validate_email (env : Env) (email : String) : Option String :=
  match env.email_lib email with
  | none => none
  | some normalized_email =>
    match pySplitChar '@' normalized_email with
    | [local_part, domain] =>
      let domain_name := (pySplitChar '.' domain).headD ""
      if pyLower local_part = pyLower domain_name then none
      else if (["gmail.com", "yahoo.com", "hotmail.com", "outlook.com", "aol.com"].any
          (fun common =>
            decide (env.similarity (pyLower domain) common > (85 : Rat) / 100) &&
            pyLower domain != common)) then none
      else some normalized_email
    | _ => none

/-- Python `ms.split(",") if ms else []` on the comma-joined services column. -/
def servicesList (s : Option String) : List String :=
  if truthy s then pySplitChar ',' (s.getD "") else []

/-- The field-overwriting block of `collect_or_update_move_details` (identical
in both route files): every truthy extracted field overwrites the column,
except the date, which is handled separately. -/
def applyExtract (e : Extracted) (md : MoveDetail) : MoveDetail :=
  let md := if truthy e.origin then { md with origin := e.origin } else md
  let md := if truthy e.destination then { md with destination := e.destination } else md
  let md := if truthy e.move_size then { md with move_size := e.move_size } else md
  let md := if !e.additional_services.isEmpty then
    { md with additional_services := some (String.intercalate "," e.additional_services) } else md
  let md := if truthy e.username then { md with username := e.username } else md
  let md := if truthy e.contact_no then { md with contact_no := e.contact_no } else md
  md

/-- The required-slot scan of `collect_or_update_move_details`, in the source's
fixed order. -/
def missingFields (md : MoveDetail) : List String :=
  (if !truthy md.origin then ["origin"] else []) ++
  (if !truthy md.destination then ["destination"] else []) ++
  (if !truthy md.move_size then ["move size"] else []) ++
  (if !truthy md.move_date then ["move date"] else [])

/-- Return value of `collect_or_update_move_details`, plus the committed rows
and a count of `maps_manager.estimate_cost` invocations. -/
structure CollectOut where
  session : ChatSession
  detail : Option MoveDetail
  any_new_info : Bool
  did_estimate : Bool
  reply : Option String
  pricing_calls : Nat
  deriving DecidableEq, Repr

/-- The estimate reply f-string of `collect_or_update_move_details`; `closing`
is the channel-specific last sentence. -/
def estimateReply (md : MoveDetail) (min_cost max_cost : Int) (closing : String) : String :=
  "The estimated cost for moving from " ++ pyTitle (md.origin.getD "") ++ " to " ++
  pyTitle (md.destination.getD "") ++ " (" ++ pyTitle (md.move_size.getD "") ++
  ", date: " ++ pyShowStr md.move_date ++ ") is between $" ++ toString min_cost ++
  " and $" ++ toString max_cost ++ ". 🏠📦💰\n" ++ closing

/-- The tail of `collect_or_update_move_details` after the date assignment:
the missing-fields prompt, or the pricing call and its commit. -/
def collectAfterDate (env : Env) (closing : String)
    (chat_session : ChatSession) (md : MoveDetail) : CollectOut :=
  let missing := missingFields md
  if !missing.isEmpty then
    { session := chat_session, detail := some md, any_new_info := true,
      did_estimate := false,
      reply := some ("I still need your " ++ String.intercalate ", " missing ++
        " to provide an estimate."),
      pricing_calls := 0 }
  else
    match env.estimate_cost md.origin md.destination md.move_size
      (servicesList md.additional_services) md.move_date with
    | (some _, some (min_cost, max_cost)) =>
      let chat_session := { chat_session with
        estimated_cost_min := some min_cost, estimated_cost_max := some max_cost,
        state := ChatState.COST_ESTIMATED }
      let md := { md with
        estimated_cost_min := some min_cost, estimated_cost_max := some max_cost,
        state := ChatState.COST_ESTIMATED }
      { session := chat_session, detail := some md, any_new_info := true,
        did_estimate := true,
        reply := some (estimateReply md min_cost max_cost closing),
        pricing_calls := 1 }
    | _ =>
      { session := chat_session, detail := some md, any_new_info := true,
        did_estimate := false,
        reply := some "I'm having trouble calculating the cost. Please verify locations or try again.",
        pricing_calls := 1 }

/-- Translation of `collect_or_update_move_details` (identical in both route
files up to the channel-specific `std` date helper and estimate-reply
`closing`): extract once, bail out when none of the four core fields is
truthy, lazily create the move-detail row, overwrite truthy fields, normalize
an extracted date (a rejected date returns early with the corrective prompt),
then prompt for missing slots or price the move. -/
def collect_or_update_move_details (env : Env)
    (std : String → Except String String) (closing : String)
    (chat_session : ChatSession) (detail0 : Option MoveDetail)
    (user_text : String) : CollectOut :=
  let extracted := env.extract_fields user_text
  let any_new_info := truthy extracted.origin || truthy extracted.destination ||
    truthy extracted.move_size || truthy extracted.move_date
  if !any_new_info then
    { session := chat_session, detail := detail0, any_new_info := false,
      did_estimate := false, reply := none, pricing_calls := 0 }
  else
    let md0 : MoveDetail := match detail0 with
      | some md => md
      | none => { chat_id := chat_session.chat_id }
    let md := applyExtract extracted md0
    if truthy extracted.move_date then
      match std (extracted.move_date.getD "") with
      | Except.error err =>
        { session := chat_session, detail := some md, any_new_info := true,
          did_estimate := false,
          reply := some (err ++ " Please provide a valid future date."),
          pricing_calls := 0 }
      | Except.ok std_date =>
        collectAfterDate env closing
          { chat_session with move_date := some std_date }
          { md with move_date := some std_date }
    else
      collectAfterDate env closing chat_session md

/-- The text channel's instance of the collect routine. -/
def text_collect (env : Env) (chat_session : ChatSession)
    (detail0 : Option MoveDetail) (user_text : String) : CollectOut :=
  collect_or_update_move_details env
    (text_standardize_date env.parse_datetime env.now)
    "Would you like to proceed with booking this move? (Reply Yes/No) 👍👎"
    chat_session detail0 user_text

/-- The voice channel's instance of the collect routine. -/
def voice_collect (env : Env) (chat_session : ChatSession)
    (detail0 : Option MoveDetail) (user_text : String) : CollectOut :=
  collect_or_update_move_details env
    (voice_standardize_date env.parse_datetime env.now)
    "Would you like to proceed with booking this move? Please say Yes or No."
    chat_session detail0 user_text

/-- Append one transcript row (a `db.session.add(Message(...)); commit`). -/
def addMsg (db : Db) (sender text : String) : Db :=
  { db with messages := db.messages ++ [{ sender := sender, message := text }] }

deriving instance DecidableEq for Except

/-- A handler step's outcome: the committed snapshot, the HTTP-level reply
(`Except.error` = an error JSON / error TwiML, `Except.ok` = the rendered
assistant reply), and how often `maps_manager.estimate_cost` ran. -/
structure StepOut where
  db : Db
  response : Except String String
  pricing_calls : Nat
  deriving DecidableEq, Repr

/-- Store the assistant reply in the transcript and return it (the text
channel's reply pattern). -/
def respond (db : Db) (calls : Nat) (reply : String) : StepOut :=
  { db := addMsg db "assistant" reply, response := Except.ok reply,
    pricing_calls := calls }

/-- Return the reply without a transcript row (the voice channel speaks the
reply in TwiML and only stores the caller's side plus GPT fallback replies). -/
def vrespond (db : Db) (calls : Nat) (reply : String) : StepOut :=
  { db := db, response := Except.ok reply, pricing_calls := calls }

/-- The states `general_query` routes through `collect_or_update_move_details`. -/
def collecting_states : List ChatState :=
  [ChatState.INITIAL, ChatState.COLLECTING_MOVE_SIZE,
   ChatState.COLLECTING_MOVE_DATE, ChatState.MODIFY_DETAILS]

/-- The `normal_gpt_reply` fallback: one oracle call over the transcript so
far, and the reply is stored as an assistant message (both channels). -/
def gpt_fallback (env : Env) (db : Db) (user_input : String) (calls : Nat) : StepOut :=
  respond db calls (env.gpt_reply db.messages user_input)

/-- The repricing tail of the services sub-step of `general_query` (text,
state `COLLECTING_MOVE_SIZE`): reprice with the updated services, commit the
costs only on success, and advance to `COLLECTING_MOVE_DATE` (the email
sub-step) unconditionally. -/
def gq_services_price (env : Env) (db : Db) (md : MoveDetail) (calls : Nat) : StepOut :=
  let pr := env.estimate_cost md.origin md.destination md.move_size
    (servicesList md.additional_services) md.move_date
  let committed : ChatSession × MoveDetail :=
    match pr with
    | (some _, some (min_cost, max_cost)) =>
      ({ db.session with
         estimated_cost_min := some min_cost,
         estimated_cost_max := some max_cost },
       { md with
         estimated_cost_min := some min_cost,
         estimated_cost_max := some max_cost })
    | _ => (db.session, md)
  let s2 := { committed.1 with state := ChatState.COLLECTING_MOVE_DATE }
  respond { db with session := s2, detail := some committed.2 } (calls + 1)
    "Please share your email address for updates on your move."

/-- The full-details confirmation summary emitted at `AWAITING_CONTACT`
acceptance (text channel f-string). -/
def details_summary (s : ChatSession) (md : MoveDetail) : String :=
  let svc := pyOrStr md.additional_services ""
  let svc_list := (pySplitChar ',' svc).filter (fun x => !x.isEmpty)
  let svc_str := if svc_list.isEmpty then "None" else String.intercalate ", " svc_list
  "Here are your move details:\n" ++
  "📍 From: " ++ (if truthy md.origin then pyTitle (md.origin.getD "") else "Not Provided") ++ "\n" ++
  "📍 To: " ++ (if truthy md.destination then pyTitle (md.destination.getD "") else "Not Provided") ++ "\n" ++
  "🏠 Move Size: " ++ (if truthy md.move_size then pyTitle (md.move_size.getD "") else "Not Provided") ++ "\n" ++
  "📅 Move Date: " ++ pyShowStr md.move_date ++ "\n" ++
  "🔧 Additional Services: " ++ svc_str ++ "\n" ++
  "📧 Email: " ++ pyOrStr md.email "Not Provided" ++ "\n" ++
  "💰 Estimated Cost: $" ++ pyShow s.estimated_cost_min ++ " - $" ++ pyShow s.estimated_cost_max ++ "\n" ++
  "👤 Name: " ++ pyShowStr md.username ++ "\n" ++
  "📞 Contact No: " ++ pyShowStr md.contact_no ++ "\n\n" ++
  "Do you confirm this booking? (Yes/No) 👍👎"

/-- The text services offer at the `COST_ESTIMATED` yes-gate. -/
def services_offer_text (env : Env) (detail : Option MoveDetail) : String :=
  match detail with
  | some md =>
    if truthy md.move_size then
      let costs := env.get_additional_services_costs (md.move_size.getD "")
      "Would you like any additional services such as packing (cost: $" ++ pyShow costs.1 ++
      ") or storage (cost: $" ++ pyShow costs.2 ++ ")? If yes, please specify them " ++
      "(e.g., 'only packing', 'yes storage', or 'packing, storage'). If not, type 'no'."
    else
      "Would you like any additional services such as packing or storage? " ++
      "If yes, please specify them (e.g., packing, storage). If not, type 'no'."
  | none =>
    "Would you like any additional services such as packing or storage? " ++
    "If yes, please specify them (e.g., packing, storage). If not, type 'no'."

/-- The message the ended-session guard of `general_query` rejects with. -/
def ended_error : String := "Chat session is already ended. Please start a new chat."

/-- The generic 500 reply of `general_query`'s exception handler. -/
def internal_error : String := "An internal error occurred. Please try again later."

/-- The state dispatch of `general_query` after the FAQ gate and the first
collect attempt: `db` already holds the user message and any rows the collect
attempt committed, `user_input` is the sanitized input and `calls` the pricing
invocations so far. -/
def gq_states (env : Env) (db : Db) (user_input : String) (calls : Nat) : StepOut :=
  let s := db.session
  if s.state = ChatState.COST_ESTIMATED then
    if ["yes", "y", "👍"].contains (pyLower user_input) then
      respond { db with session := { s with state := ChatState.COLLECTING_MOVE_SIZE } } calls
        (services_offer_text env db.detail)
    else if ["no", "n", "👎"].contains (pyLower user_input) then
      respond { db with session := { s with state := ChatState.INITIAL } } calls
        "No worries! Let me know if you have any other questions."
    else
      respond db calls "Please respond with Yes or No. Would you like to proceed with booking?"
  else if s.state = ChatState.COLLECTING_MOVE_SIZE then
    match db.detail with
    | none =>
      respond db calls "No move details found. Please provide origin, destination, move size, and move date first."
    | some md =>
      let user_lower := pyStrip (pyLower user_input)
      if user_lower = "no" ∨ user_lower = "none" then
        gq_services_price env db { md with additional_services := some "" } calls
      else
        let services_found :=
          (if strContains user_lower "packing" then ["packing"] else []) ++
          (if strContains user_lower "storage" then ["storage"] else [])
        if services_found.isEmpty then
          respond db calls "Sorry, please respond again with valid additional services (e.g., packing, storage) or 'no'."
        else
          gq_services_price env db
            { md with additional_services := some (String.intercalate "," services_found) } calls
  else if s.state = ChatState.COLLECTING_MOVE_DATE then
    match db.detail with
    | none =>
      respond db calls "No move details found. Please provide origin, destination, move size, and move date first."
    | some md =>
      match validate_email env (pyStrip user_input) with
      | none => respond db calls "Invalid email format. Please provide a valid email address."
      | some normalized_email =>
        respond { db with
          session := { s with state := ChatState.AWAITING_NAME },
          detail := some { md with email := some normalized_email } } calls
          "Great! Now please share your name."
  else if s.state = ChatState.AWAITING_NAME then
    let name := pyStrip user_input
    if name.isEmpty then
      respond db calls "Please provide your name."
    else
      let d2 := match db.detail with
        | some md => some { md with username := some name }
        | none => none
      respond { db with
        session := { s with username := some name, state := ChatState.AWAITING_CONTACT },
        detail := d2 } calls
        "Thank you! Now please share your 10-digit contact number."
  else if s.state = ChatState.AWAITING_CONTACT then
    match validate_and_normalize_contact_number (pyStrip user_input) with
    | none =>
      respond db calls "Invalid contact number format. Please provide a valid 10-digit contact number."
    | some normalized_contact =>
      let s2 := { s with
        contact_no := some normalized_contact,
        state := ChatState.AWAITING_FINAL_CONFIRMATION }
      match db.detail with
      | none =>
        -- Python raises AttributeError on `move_detail.additional_services`
        -- after the session update was committed: the outer handler turns it
        -- into the generic 500 reply, with no assistant message stored.
        { db := { db with session := s2 }, response := Except.error internal_error,
          pricing_calls := calls }
      | some md =>
        let md2 := { md with contact_no := some normalized_contact }
        respond { db with session := s2, detail := some md2 } calls
          (details_summary s2 md2)
  else if s.state = ChatState.AWAITING_FINAL_CONFIRMATION then
    if ["yes", "y", "👍"].contains (pyLower user_input) then
      respond { db with session := { s with
        confirmed := true,
        is_active := false,
        state := ChatState.CONFIRMED } } calls
        "Your move has been successfully confirmed! 🎉 Our team will be in touch soon."
    else if ["no", "n", "👎"].contains (pyLower user_input) then
      respond { db with session := { s with state := ChatState.MODIFY_DETAILS } } calls
        "I understand. Which details would you like to change? (e.g., new date, different origin/destination, etc.)"
    else
      respond db calls "Please respond with Yes or No. Do you confirm this booking?"
  else if s.state = ChatState.MODIFY_DETAILS then
    -- This branch runs only when the collect attempt at the top extracted
    -- nothing; the source then calls collect_or_update_move_details a second
    -- time before falling back to the GPT reply.
    let c := text_collect env s db.detail user_input
    let db2 : Db := { db with session := c.session, detail := c.detail }
    if c.any_new_info ∧ c.reply.isSome then
      respond db2 (calls + c.pricing_calls) (c.reply.getD "")
    else
      gpt_fallback env db2 user_input (calls + c.pricing_calls)
  else
    gpt_fallback env db user_input calls

/-- Translation of the `/general_query` handler of src/routes/text_routes.py
for an existing session: the ended-session guard, input strip + sanitize, the
user transcript row, the FAQ hard gate, the collect attempt in the collecting
states, then the per-state dispatch. -/
def general_query (env : Env) (db0 : Db) (raw_message : String) : StepOut :=
  let s := db0.session
  if s.is_active = false ∧ s.state ≠ ChatState.CONFIRMED then
    { db := db0, response := Except.error ended_error, pricing_calls := 0 }
  else
    let user_input := sanitize_input (pyStrip raw_message)
    let db := addMsg db0 "user" user_input
    if is_faq_query user_input then
      respond db 0 (env.find_best_match user_input)
    else if db.session.state ∈ collecting_states then
      let c := text_collect env db.session db.detail user_input
      let db2 : Db := { db with session := c.session, detail := c.detail }
      if c.any_new_info ∧ c.reply.isSome then
        respond db2 c.pricing_calls (c.reply.getD "")
      else
        gq_states env db2 user_input c.pricing_calls
    else
      gq_states env db user_input 0

/-- The states `voice_handle_input` routes through the collect routine (the
voice list omits `COLLECTING_MOVE_DATE`). -/
def voice_collecting_states : List ChatState :=
  [ChatState.INITIAL, ChatState.COLLECTING_MOVE_SIZE, ChatState.MODIFY_DETAILS]

/-- The voice services offer at the `COST_ESTIMATED` yes-gate. -/
def services_offer_voice (env : Env) (detail : Option MoveDetail) : String :=
  match detail with
  | some md =>
    if truthy md.move_size then
      let costs := env.get_additional_services_costs (md.move_size.getD "")
      "Would you like any additional services such as packing (cost: $" ++ pyShow costs.1 ++
      ") or storage (cost: $" ++ pyShow costs.2 ++
      ")? Please specify if you want packing, storage, or both. If not, say no."
    else
      "Would you like any additional services such as packing or storage? Please specify, or say no."
  | none =>
    "Would you like any additional services such as packing or storage? Please specify, or say no."

/-- The generic reply of `voice_handle_input`'s exception handler. -/
def voice_error : String := "An error occurred. Please try again later."

/-- Translation of the `/voice/handle_input` handler of
src/routes/voice_routes.py for an existing session: no ended-session guard and
no sanitization, the caller transcript row, the FAQ gate, collect in
`voice_collecting_states`, then the per-state dispatch (with the voice
channel's pass-through email/contact handling and substring yes/no tests).
The trailing `MODIFY_DETAILS` elif of the source is dead code (that state is
already caught by the collect branch) and is therefore unreachable here too. -/
def voice_handle_input (env : Env) (db0 : Db) (raw_speech : String) : StepOut :=
  let speech_input := pyStrip raw_speech
  let db := addMsg db0 "user" speech_input
  let s := db.session
  if is_faq_query speech_input then
    vrespond db 0 (env.find_best_match speech_input)
  else if s.state ∈ voice_collecting_states then
    let c := voice_collect env s db.detail speech_input
    let db2 : Db := { db with session := c.session, detail := c.detail }
    if c.any_new_info ∧ c.reply.isSome then
      vrespond db2 c.pricing_calls (c.reply.getD "")
    else
      gpt_fallback env db2 speech_input c.pricing_calls
  else if s.state = ChatState.COST_ESTIMATED then
    if strContains (pyLower speech_input) "yes" then
      vrespond { db with session := { s with state := ChatState.AWAITING_ADDITIONAL_SERVICES } } 0
        (services_offer_voice env db.detail)
    else if strContains (pyLower speech_input) "no" then
      vrespond { db with session := { s with state := ChatState.INITIAL } } 0
        "No worries! Let me know if you have any other questions."
    else
      vrespond db 0 "Please respond with Yes or No. Would you like to proceed with booking?"
  else if s.state = ChatState.AWAITING_ADDITIONAL_SERVICES then
    match db.detail with
    | none =>
      -- Python raises AttributeError on `move_detail.additional_services`
      -- before any further commit: the handler answers with the generic error.
      { db := db, response := Except.error voice_error, pricing_calls := 0 }
    | some md =>
      let user_lower := pyStrip (pyLower speech_input)
      let services_found :=
        (if strContains user_lower "packing" then ["packing"] else []) ++
        (if strContains user_lower "storage" then ["storage"] else [])
      let updated : MoveDetail × String :=
        if services_found.isEmpty then
          ({ md with additional_services := some "" },
           "I didn't catch any specific additional service. I'll assume you don't want any additional services.")
        else
          ({ md with additional_services := some (String.intercalate "," services_found) },
           "Noted. You chose additional services: " ++ String.intercalate "," services_found ++ ".")
      let md2 := updated.1
      let pr := env.estimate_cost md2.origin md2.destination md2.move_size
        (servicesList md2.additional_services) md2.move_date
      let committed : ChatSession × MoveDetail :=
        match pr with
        | (some _, some (min_cost, max_cost)) =>
          ({ s with
             estimated_cost_min := some min_cost,
             estimated_cost_max := some max_cost },
           { md2 with
             estimated_cost_min := some min_cost,
             estimated_cost_max := some max_cost })
        | _ => (s, md2)
      vrespond { db with
        session := { committed.1 with state := ChatState.COLLECTING_MOVE_DATE },
        detail := some committed.2 } 1
        (updated.2 ++ " Please share your email address for updates on your move.")
  else if s.state = ChatState.COLLECTING_MOVE_DATE then
    match db.detail with
    | none =>
      vrespond db 0 "No move details found. Please provide origin, destination, move size, and move date first."
    | some md =>
      -- The raw transcript text is stored as the email, without validation.
      vrespond { db with
        session := { s with state := ChatState.AWAITING_NAME },
        detail := some { md with email := some speech_input } } 0
        "Great! Now please share your name."
  else if s.state = ChatState.AWAITING_NAME then
    let name := pyStrip speech_input
    if name.isEmpty then
      vrespond db 0 "I didn't catch your name. Please provide your name."
    else
      let d2 := match db.detail with
        | some md => some { md with username := some name }
        | none => none
      vrespond { db with
        session := { s with username := some name, state := ChatState.AWAITING_CONTACT },
        detail := d2 } 0
        "Thank you! Now please share your 10-digit contact number."
  else if s.state = ChatState.AWAITING_CONTACT then
    -- The raw contact input is stored without validation.
    let s2 := { s with
      contact_no := some speech_input,
      state := ChatState.AWAITING_FINAL_CONFIRMATION }
    match db.detail with
    | none =>
      -- AttributeError after the session update was committed.
      { db := { db with session := s2 }, response := Except.error voice_error,
        pricing_calls := 0 }
    | some md =>
      let md2 := { md with contact_no := some speech_input }
      let svc := pyOrStr md2.additional_services ""
      let svc_list := (pySplitChar ',' svc).filter (fun x => !x.isEmpty)
      let svc_str := if svc_list.isEmpty then "None" else String.intercalate ", " svc_list
      vrespond { db with session := s2, detail := some md2 } 0
        ("Here are your move details: From " ++
         (if truthy md2.origin then pyTitle (md2.origin.getD "") else "Not Provided") ++ ", To " ++
         (if truthy md2.destination then pyTitle (md2.destination.getD "") else "Not Provided") ++ ", Move Size " ++
         (if truthy md2.move_size then pyTitle (md2.move_size.getD "") else "Not Provided") ++ ", Move Date " ++
         pyShowStr md2.move_date ++ ", Additional Services " ++ svc_str ++ ", Email " ++
         pyOrStr md2.email "Not Provided" ++ ", Name " ++ pyOrStr md2.username "Not Provided" ++
         ", Contact Number " ++ pyShowStr md2.contact_no ++
         ". Do you confirm this booking? Please say Yes or No.")
  else if s.state = ChatState.AWAITING_FINAL_CONFIRMATION then
    if strContains (pyLower speech_input) "yes" then
      vrespond { db with session := { s with
        confirmed := true,
        is_active := false,
        state := ChatState.CONFIRMED } } 0
        "Your move has been successfully confirmed! Our team will be in touch soon."
    else if strContains (pyLower speech_input) "no" then
      vrespond { db with session := { s with state := ChatState.MODIFY_DETAILS } } 0
        "I understand. Which details would you like to change? For example, a new date or different origin/destination?"
    else
      vrespond db 0 "Please respond with Yes or No. Do you confirm this booking?"
  else if s.state = ChatState.MODIFY_DETAILS then
    -- Dead code in the source: MODIFY_DETAILS is in voice_collecting_states.
    let c := voice_collect env s db.detail speech_input
    let db2 : Db := { db with session := c.session, detail := c.detail }
    if c.any_new_info ∧ c.reply.isSome then
      vrespond db2 c.pricing_calls (c.reply.getD "")
    else
      gpt_fallback env db2 speech_input c.pricing_calls
  else
    gpt_fallback env db speech_input 0

/-! ### Concrete oracle environments and rows used by witnesses and
counterexamples -/

/-- A concrete oracle environment: the extractor recognizes two fixed
utterances, dates parse for two fixed strings, pricing always succeeds. -/
def envA : Env where
  extract_fields := fun t =>
    if t = "from austin to dallas, 2 bedroom, on 2099-01-01" then
      { origin := some "austin", destination := some "dallas",
        move_size := some "2 bedroom", move_date := some "2099-01-01" }
    else if t = "my name is Bob" then { username := some "Bob" }
    else if t = "moving on 2020-01-01" then { move_date := some "2020-01-01" }
    else {}
  parse_datetime := fun s =>
    if s = "2099-01-01" then some ⟨2099, 1, 1, 0⟩
    else if s = "2020-01-01" then some ⟨2020, 1, 1, 0⟩
    else none
  now := ⟨2025, 6, 15, 43200⟩
  estimate_cost := fun _ _ _ _ _ => (some 195, some (1200, 1800))
  get_additional_services_costs := fun _ => (some 300, some 450)
  find_best_match := fun _ => "Our refund policy is described on the website."
  gpt_reply := fun _ _ => "Happy to help with your move!"
  email_lib := fun _ => none
  similarity := fun _ _ => 0

/-- `envA` with a failing pricing oracle. -/
def envFail : Env := { envA with estimate_cost := fun _ _ _ _ _ => (none, none) }

/-- A fully slot-filled move-detail row. -/
def mdFull : MoveDetail :=
  { chat_id := "c1", origin := some "austin", destination := some "dallas",
    move_size := some "2 bedroom", move_date := some "2099-01-01",
    state := ChatState.COST_ESTIMATED }

/-- A session snapshot in a given state holding a given move-detail row. -/
def dbAt (st : ChatState) (d : Option MoveDetail) : Db :=
  { session := { chat_id := "c1", state := st }, detail := d, messages := [] }

/-- A deactivated, unconfirmed session snapshot. -/
def dbInactive : Db :=
  { session := { chat_id := "c1", is_active := false }, detail := none, messages := [] }

/-- A confirmed (hence deactivated) session row. -/
def sessConfirmed : ChatSession :=
  { chat_id := "c1", is_active := false, confirmed := true, state := ChatState.CONFIRMED }

/-- A confirmed (hence deactivated) session snapshot. -/
def dbConfirmedRow : Db :=
  { session := sessConfirmed, detail := none, messages := [] }

/-- The detail row the collect routine prices: the overwritten row, with an
extracted date replaced by its normalized form when normalization succeeds. -/
def pricedDetail (std : String → Except String String)
    (e : Extracted) (md : MoveDetail) : MoveDetail :=
  if truthy e.move_date then
    match std (e.move_date.getD "") with
    | Except.ok v => { applyExtract e md with move_date := some v }
    | Except.error _ => applyExtract e md
  else applyExtract e md

/-- The session row as the collect routine leaves it just before pricing: only
a successfully normalized extracted date is written onto it. -/
def pricedSession (std : String → Except String String)
    (e : Extracted) (cs : ChatSession) : ChatSession :=
  if truthy e.move_date then
    match std (e.move_date.getD "") with
    | Except.ok v => { cs with move_date := some v }
    | Except.error _ => cs
  else cs

/-! ### Helper lemmas about the slot-overwriting block -/

/-- Closed form of `applyExtract`: one simultaneous record update. -/
theorem applyExtract_eq (e : Extracted) (m : MoveDetail) :
    applyExtract e m = { m with
      origin := if truthy e.origin then e.origin else m.origin,
      destination := if truthy e.destination then e.destination else m.destination,
      move_size := if truthy e.move_size then e.move_size else m.move_size,
      additional_services := if !e.additional_services.isEmpty then
        some (String.intercalate "," e.additional_services) else m.additional_services,
      username := if truthy e.username then e.username else m.username,
      contact_no := if truthy e.contact_no then e.contact_no else m.contact_no } := by
  unfold applyExtract
  split_ifs <;> rfl

theorem applyExtract_state (e : Extracted) (m : MoveDetail) :
    (applyExtract e m).state = m.state := by
  rw [applyExtract_eq]

theorem applyExtract_move_date (e : Extracted) (m : MoveDetail) :
    (applyExtract e m).move_date = m.move_date := by
  rw [applyExtract_eq]

/-! ### C2 -/

/-- C2: in every dialogue state of a live session, an utterance matching an
FAQ trigger keyword is answered from the FAQ matcher, the session row and the
move-detail row are left unchanged, and exactly the two transcript rows are
appended. -/
theorem C2_faq_bypass (env : Env) (db : Db) (raw : String)
    (hact : db.session.is_active = true)
    (hfaq : is_faq_query (sanitize_input (pyStrip raw)) = true) :
    (general_query env db raw).response =
      Except.ok (env.find_best_match (sanitize_input (pyStrip raw))) ∧
    (general_query env db raw).db.session = db.session ∧
    (general_query env db raw).db.detail = db.detail ∧
    (general_query env db raw).db.messages = db.messages ++
      [{ sender := "user", message := sanitize_input (pyStrip raw) },
       { sender := "assistant",
         message := env.find_best_match (sanitize_input (pyStrip raw)) }] := by
  have h1 : ¬(db.session.is_active = false ∧ db.session.state ≠ ChatState.CONFIRMED) := by
    simp [hact]
  simp [general_query, h1, hfaq, respond, addMsg]

/-- Witness for C2 at a concrete refund query. -/
theorem C2_faq_bypass_witness :
    (general_query envA (dbAt ChatState.AWAITING_NAME none) "refund").response =
      Except.ok "Our refund policy is described on the website." ∧
    (general_query envA (dbAt ChatState.AWAITING_NAME none) "refund").db.session =
      (dbAt ChatState.AWAITING_NAME none).session := by
  have h := C2_faq_bypass envA (dbAt ChatState.AWAITING_NAME none) "refund" rfl (by decide)
  exact ⟨h.1, h.2.1⟩

/-! ### C10 -/

/-- C10: a deactivated session whose state is not `CONFIRMED` is rejected with
the ended-session error before any transcript row or field mutation, while a
session in state `CONFIRMED` (deactivated or not) still accepts non-FAQ
utterances, which fall through to the free-form GPT reply with the session and
move-detail rows unchanged. -/
theorem C10_inactive_guard (env : Env) (db : Db) (raw : String) :
    (db.session.is_active = false → db.session.state ≠ ChatState.CONFIRMED →
      general_query env db raw =
        { db := db, response := Except.error ended_error, pricing_calls := 0 }) ∧
    (db.session.state = ChatState.CONFIRMED →
      is_faq_query (sanitize_input (pyStrip raw)) = false →
      (general_query env db raw).response =
        Except.ok (env.gpt_reply (db.messages ++
            [{ sender := "user", message := sanitize_input (pyStrip raw) }])
          (sanitize_input (pyStrip raw))) ∧
      (general_query env db raw).db.session = db.session ∧
      (general_query env db raw).db.detail = db.detail) := by
  constructor
  · intro h1 h2
    simp [general_query, h1, h2]
  · intro hst hfaq
    have h1 : ¬(db.session.is_active = false ∧ db.session.state ≠ ChatState.CONFIRMED) := by
      simp [hst]
    have hmem := eq_false (by decide : ¬(ChatState.CONFIRMED ∈ collecting_states))
    simp [general_query, h1, hfaq, hmem, gq_states, hst, gpt_fallback, respond, addMsg]

/-- Witness for C10: a deactivated unconfirmed session is refused, a confirmed
one still gets a GPT reply. -/
theorem C10_inactive_guard_witness :
    general_query envA dbInactive "hello" =
      { db := dbInactive, response := Except.error ended_error, pricing_calls := 0 } ∧
    (general_query envA dbConfirmedRow "hello").response =
      Except.ok "Happy to help with your move!" := by
  constructor
  · exact (C10_inactive_guard envA dbInactive "hello").1 rfl (by decide)
  · exact ((C10_inactive_guard envA dbConfirmedRow "hello").2 (by decide) (by decide)).1

/-! ### C5 -/

/-- C5: contact validation strips every non-digit and accepts exactly ten
remaining digits; at `AWAITING_CONTACT` an accepted number (the digit-only
string) is committed onto both the session and the move-detail rows and the
state advances to `AWAITING_FINAL_CONFIRMATION` with the full details summary,
while a rejected one leaves both rows unchanged and re-prompts for a valid
10-digit number. -/
theorem C5_contact_validation (env : Env) (db : Db) (raw : String) (md : MoveDetail)
    (hact : db.session.is_active = true)
    (hstate : db.session.state = ChatState.AWAITING_CONTACT)
    (hdet : db.detail = some md)
    (hfaq : is_faq_query (sanitize_input (pyStrip raw)) = false) :
    (∀ inp : String,
      validate_and_normalize_contact_number inp =
        if (inp.data.filter Char.isDigit).length = 10 then
          some (String.mk (inp.data.filter Char.isDigit))
        else none) ∧
    (∀ c, validate_and_normalize_contact_number (pyStrip (sanitize_input (pyStrip raw))) = some c →
      (general_query env db raw).db.session.contact_no = some c ∧
      (general_query env db raw).db.session.state = ChatState.AWAITING_FINAL_CONFIRMATION ∧
      (general_query env db raw).db.detail = some { md with contact_no := some c } ∧
      (general_query env db raw).response =
        Except.ok (details_summary (general_query env db raw).db.session
          { md with contact_no := some c })) ∧
    (validate_and_normalize_contact_number (pyStrip (sanitize_input (pyStrip raw))) = none →
      (general_query env db raw).db.session = db.session ∧
      (general_query env db raw).db.detail = db.detail ∧
      (general_query env db raw).response =
        Except.ok "Invalid contact number format. Please provide a valid 10-digit contact number.") := by
  have h1 : ¬(db.session.is_active = false ∧ db.session.state ≠ ChatState.CONFIRMED) := by
    simp [hact]
  have hmem := eq_false (by decide : ¬(ChatState.AWAITING_CONTACT ∈ collecting_states))
  refine ⟨?_, ?_, ?_⟩
  · intro inp
    unfold validate_and_normalize_contact_number
    simp [String.length]
  · intro c hc
    simp [general_query, h1, hact, hfaq, hmem, gq_states, hstate, hdet, hc, respond, addMsg]
  · intro hc
    simp [general_query, h1, hact, hfaq, hmem, gq_states, hstate, hdet, hc, respond, addMsg]

/-- Witness for C5 at the concrete input "(555) 123-4567". -/
theorem C5_contact_validation_witness :
    (general_query envA (dbAt ChatState.AWAITING_CONTACT (some mdFull))
        "(555) 123-4567").db.session.contact_no = some "5551234567" ∧
    (general_query envA (dbAt ChatState.AWAITING_CONTACT (some mdFull))
        "(555) 123-4567").db.session.state = ChatState.AWAITING_FINAL_CONFIRMATION := by
  have h := ((C5_contact_validation envA (dbAt ChatState.AWAITING_CONTACT (some mdFull))
    "(555) 123-4567" mdFull rfl rfl rfl (by decide)).2.1) "5551234567" (by decide)
  exact ⟨h.1, h.2.1⟩

/-! ### C6 -/

/-- The post-date tail of the collect routine never touches `move_date`, and
it touches the state fields only to set both to `COST_ESTIMATED`. -/
theorem collectAfterDate_move_date (env : Env) (closing : String)
    (cs : ChatSession) (md : MoveDetail) :
    (collectAfterDate env closing cs md).session.move_date = cs.move_date ∧
    (collectAfterDate env closing cs md).detail.map (fun d => d.move_date) =
      some md.move_date := by
  unfold collectAfterDate
  dsimp only
  split_ifs
  · simp
  · split <;> simp

/-- Zeroing the time of the right operand turns the full datetime comparison
into the date-only comparison. -/
theorem dtLt_zeroed (d now : PyDateTime) :
    dtLt d { now with secs := 0 } = dateLt d now := by
  unfold dtLt
  split_ifs with h
  · obtain ⟨h1, h2, h3⟩ := h
    simp only [dateLt, h1, h2, h3]
    simp
  · rfl

/-- C6: date normalization (shared by both channels up to the unparseable-date
message) rejects a fuzzy-parsed date exactly when its calendar date is
strictly before today's calendar date (time of day ignored on both sides), an
accepted date is rendered in canonical `YYYY-MM-DD` form, a rejected date
leaves the dialogue state of the session and of the move-detail row unchanged
in the collect routine of either channel, and an accepted one is stored on
both rows. -/
theorem C6_date_normalization :
    (∀ (parse : String → Option PyDateTime) (now : PyDateTime) (msg s : String) (d : PyDateTime),
      parse s = some d →
      ((standardize_date_core parse now msg s =
          Except.error "The date you provided is in the past. Please provide a future date.") ↔
        dateLt d now = true) ∧
      (dateLt d now = false →
        standardize_date_core parse now msg s = Except.ok (formatYMD d))) ∧
    (∀ (env : Env) (std : String → Except String String) (closing : String)
        (sess : ChatSession) (det : Option MoveDetail) (t err : String),
      truthy (env.extract_fields t).move_date = true →
      std ((env.extract_fields t).move_date.getD "") = Except.error err →
      (collect_or_update_move_details env std closing sess det t).session.state = sess.state ∧
      ((collect_or_update_move_details env std closing sess det t).detail.map
          (fun d => d.state)) =
        some (det.getD { chat_id := sess.chat_id }).state) ∧
    (∀ (env : Env) (std : String → Except String String) (closing : String)
        (sess : ChatSession) (det : Option MoveDetail) (t v : String),
      truthy (env.extract_fields t).move_date = true →
      std ((env.extract_fields t).move_date.getD "") = Except.ok v →
      ((collect_or_update_move_details env std closing sess det t).detail.map
          (fun d => d.move_date)) = some (some v) ∧
      (collect_or_update_move_details env std closing sess det t).session.move_date = some v) := by
  refine ⟨?_, ?_, ?_⟩
  · intro parse now msg s d hparse
    unfold standardize_date_core
    rw [hparse]
    simp only [dtLt_zeroed]
    cases hlt : dateLt d now <;> simp [hlt]
  · intro env std closing sess det t err htr herr
    have hinfo : (truthy (env.extract_fields t).origin ||
        truthy (env.extract_fields t).destination ||
        truthy (env.extract_fields t).move_size ||
        truthy (env.extract_fields t).move_date) = true := by
      simp [htr]
    unfold collect_or_update_move_details
    simp only [hinfo, Bool.not_true, if_false, htr, if_true, herr]
    cases det <;> simp [applyExtract_state]
  · intro env std closing sess det t v htr hok
    unfold collect_or_update_move_details
    simp only [htr, hok, Bool.or_true, Bool.not_true, Bool.false_eq_true, if_false, if_true]
    cases det <;> simp [collectAfterDate_move_date]

/-- Witness for C6: a past date is rejected and a future one accepted in
canonical form; in the collect routine a rejected date leaves the state
unchanged and an accepted date is stored on the session row. -/
theorem C6_date_normalization_witness :
    standardize_date_core envA.parse_datetime envA.now
        "Invalid date format. Please provide valid date." "2020-01-01" =
      Except.error "The date you provided is in the past. Please provide a future date." ∧
    standardize_date_core envA.parse_datetime envA.now
        "Invalid date format. Please provide valid date." "2099-01-01" =
      Except.ok (formatYMD ⟨2099, 1, 1, 0⟩) ∧
    (collect_or_update_move_details envA
        (text_standardize_date envA.parse_datetime envA.now) "x"
        { chat_id := "c1" } none "moving on 2020-01-01").session.state =
      ChatState.INITIAL ∧
    (collect_or_update_move_details envA
        (text_standardize_date envA.parse_datetime envA.now) "x"
        { chat_id := "c1" } none
        "from austin to dallas, 2 bedroom, on 2099-01-01").session.move_date =
      some "2099-01-01" := by
  refine ⟨?_, ?_, ?_, ?_⟩
  · exact ((C6_date_normalization.1 envA.parse_datetime envA.now _ "2020-01-01"
      ⟨2020, 1, 1, 0⟩ (by decide)).1).mpr (by decide)
  · exact (C6_date_normalization.1 envA.parse_datetime envA.now _ "2099-01-01"
      ⟨2099, 1, 1, 0⟩ (by decide)).2 (by decide)
  · exact (C6_date_normalization.2.1 envA
      (text_standardize_date envA.parse_datetime envA.now) "x"
      { chat_id := "c1" } none "moving on 2020-01-01"
      "The date you provided is in the past. Please provide a future date."
      (by decide) (by decide)).1
  · exact (C6_date_normalization.2.2 envA
      (text_standardize_date envA.parse_datetime envA.now) "x"
      { chat_id := "c1" } none "from austin to dallas, 2 bedroom, on 2099-01-01"
      "2099-01-01" (by decide) (by decide)).2

/-! ### C1 -/

theorem formatYMD_ne (d : PyDateTime) : formatYMD d ≠ "" := by
  intro h
  have hl := congrArg String.length h
  simp only [formatYMD, String.length_append] at hl
  have h1 : String.length "-" = 1 := rfl
  have h0 : String.length "" = 0 := rfl
  omega

theorem truthy_formatYMD (d : PyDateTime) : truthy (some (formatYMD d)) = true := by
  have h := formatYMD_ne d
  simp only [truthy, Bool.not_eq_true']
  rw [Bool.eq_false_iff]
  intro hc
  exact h ((String.isEmpty_iff _).mp hc)

/-- A successful run of the date helper always returns the canonical rendering
of a parsed date. -/
theorem standardize_ok_shape (parse : String → Option PyDateTime)
    (now : PyDateTime) (msg s v : String)
    (h : standardize_date_core parse now msg s = Except.ok v) :
    ∃ d, parse s = some d ∧ v = formatYMD d := by
  unfold standardize_date_core at h
  cases hp : parse s <;> rw [hp] at h
  · exact absurd h (by simp)
  · dsimp only at h
    split_ifs at h with hlt
    simp only [Except.ok.injEq] at h
    exact ⟨_, rfl, h.symm⟩

theorem missingFields_nil (md : MoveDetail)
    (h1 : truthy md.origin = true) (h2 : truthy md.destination = true)
    (h3 : truthy md.move_size = true) (h4 : truthy md.move_date = true) :
    missingFields md = [] := by
  unfold missingFields
  simp [h1, h2, h3, h4]

theorem truthy_applyExtract_origin (e : Extracted) (md : MoveDetail)
    (h : truthy md.origin = true) : truthy (applyExtract e md).origin = true := by
  rw [applyExtract_eq]
  dsimp only
  split_ifs with hh
  · exact hh
  · exact h

theorem truthy_applyExtract_destination (e : Extracted) (md : MoveDetail)
    (h : truthy md.destination = true) :
    truthy (applyExtract e md).destination = true := by
  rw [applyExtract_eq]
  dsimp only
  split_ifs with hh
  · exact hh
  · exact h

theorem truthy_applyExtract_move_size (e : Extracted) (md : MoveDetail)
    (h : truthy md.move_size = true) :
    truthy (applyExtract e md).move_size = true := by
  rw [applyExtract_eq]
  dsimp only
  split_ifs with hh
  · exact hh
  · exact h

/-- The priced row keeps all four core slots truthy when they were truthy
before, provided the date helper never returns an empty string. -/
theorem pricedDetail_missing_nil (std : String → Except String String)
    (e : Extracted) (md : MoveDetail)
    (h1 : truthy md.origin = true) (h2 : truthy md.destination = true)
    (h3 : truthy md.move_size = true) (h4 : truthy md.move_date = true)
    (hstd : ∀ v, std (e.move_date.getD "") = Except.ok v → truthy (some v) = true) :
    missingFields (pricedDetail std e md) = [] := by
  unfold pricedDetail
  split_ifs with htr
  · cases hv : std (e.move_date.getD "") with
    | error err =>
      exact missingFields_nil _ (truthy_applyExtract_origin e md h1)
        (truthy_applyExtract_destination e md h2)
        (truthy_applyExtract_move_size e md h3)
        (by rw [applyExtract_move_date]; exact h4)
    | ok v =>
      refine missingFields_nil _ ?_ ?_ ?_ (hstd v hv)
      · exact truthy_applyExtract_origin e md h1
      · exact truthy_applyExtract_destination e md h2
      · exact truthy_applyExtract_move_size e md h3
  · exact missingFields_nil _ (truthy_applyExtract_origin e md h1)
      (truthy_applyExtract_destination e md h2)
      (truthy_applyExtract_move_size e md h3)
      (by rw [applyExtract_move_date]; exact h4)

/-- On a step that extracts at least one core field and whose extracted date
(if any) normalizes, the collect routine reduces to its pricing tail over the
`pricedSession`/`pricedDetail` rows. -/
theorem collect_full_eq (env : Env) (std : String → Except String String)
    (closing : String) (cs : ChatSession) (md : MoveDetail) (t : String)
    (hinfo : (truthy (env.extract_fields t).origin ||
      truthy (env.extract_fields t).destination ||
      truthy (env.extract_fields t).move_size ||
      truthy (env.extract_fields t).move_date) = true)
    (hdate : truthy (env.extract_fields t).move_date = true →
      ∃ v, std ((env.extract_fields t).move_date.getD "") = Except.ok v) :
    collect_or_update_move_details env std closing cs (some md) t =
      collectAfterDate env closing
        (pricedSession std (env.extract_fields t) cs)
        (pricedDetail std (env.extract_fields t) md) := by
  unfold collect_or_update_move_details pricedSession pricedDetail
  simp only [hinfo, Bool.not_true, Bool.false_eq_true, if_false]
  by_cases htr : truthy (env.extract_fields t).move_date = true
  · obtain ⟨v, hv⟩ := hdate htr
    simp only [htr, if_true, hv]
  · simp [htr]

/-- The pricing tail on a row with no missing field: one pricing call, the
`COST_ESTIMATED` transition exactly on success, and the committed costs. -/
theorem collectAfterDate_priced (env : Env) (closing : String)
    (cs : ChatSession) (md : MoveDetail) (hmiss : missingFields md = []) :
    collectAfterDate env closing cs md =
      (match env.estimate_cost md.origin md.destination md.move_size
        (servicesList md.additional_services) md.move_date with
      | (some _, some (mn, mx)) =>
        { session := { cs with
            estimated_cost_min := some mn, estimated_cost_max := some mx,
            state := ChatState.COST_ESTIMATED },
          detail := some { md with
            estimated_cost_min := some mn, estimated_cost_max := some mx,
            state := ChatState.COST_ESTIMATED },
          any_new_info := true, did_estimate := true,
          reply := some (estimateReply { md with
            estimated_cost_min := some mn, estimated_cost_max := some mx,
            state := ChatState.COST_ESTIMATED } mn mx closing),
          pricing_calls := 1 }
      | _ =>
        { session := cs, detail := some md, any_new_info := true,
          did_estimate := false,
          reply := some "I'm having trouble calculating the cost. Please verify locations or try again.",
          pricing_calls := 1 }) := by
  unfold collectAfterDate
  dsimp only
  rw [hmiss]
  simp only [List.isEmpty_nil, Bool.not_true, Bool.false_eq_true, if_false]

theorem pricedSession_state (std : String → Except String String)
    (e : Extracted) (cs : ChatSession) :
    (pricedSession std e cs).state = cs.state := by
  unfold pricedSession
  split_ifs
  · split <;> rfl
  · rfl

/-- C1: for a live session in a collecting state whose move-detail row already
has all four core slots filled, a successful slot-filling step (the extractor
returns at least one truthy core field and any extracted date normalizes)
invokes the pricing oracle exactly once, the session transitions to
`COST_ESTIMATED` exactly when the pricing call succeeds (non-null distance and
a (min, max) tuple), and on success min and max are committed onto both the
session and the move-detail rows. -/
theorem C1_pricing_trigger (env : Env) (db : Db) (raw : String) (md : MoveDetail)
    (hact : db.session.is_active = true)
    (hcoll : db.session.state ∈ collecting_states)
    (hdet : db.detail = some md)
    (h1 : truthy md.origin = true) (h2 : truthy md.destination = true)
    (h3 : truthy md.move_size = true) (h4 : truthy md.move_date = true)
    (hfaq : is_faq_query (sanitize_input (pyStrip raw)) = false)
    (hinfo : (truthy (env.extract_fields (sanitize_input (pyStrip raw))).origin ||
      truthy (env.extract_fields (sanitize_input (pyStrip raw))).destination ||
      truthy (env.extract_fields (sanitize_input (pyStrip raw))).move_size ||
      truthy (env.extract_fields (sanitize_input (pyStrip raw))).move_date) = true)
    (hdate : truthy (env.extract_fields (sanitize_input (pyStrip raw))).move_date = true →
      ∃ v, text_standardize_date env.parse_datetime env.now
        ((env.extract_fields (sanitize_input (pyStrip raw))).move_date.getD "") =
          Except.ok v) :
    let t := sanitize_input (pyStrip raw)
    let std := text_standardize_date env.parse_datetime env.now
    let md2 := pricedDetail std (env.extract_fields t) md
    let pr := env.estimate_cost md2.origin md2.destination md2.move_size
      (servicesList md2.additional_services) md2.move_date
    (general_query env db raw).pricing_calls = 1 ∧
    ((general_query env db raw).db.session.state = ChatState.COST_ESTIMATED ↔
      (pr.1.isSome = true ∧ pr.2.isSome = true)) ∧
    (∀ dist mn mx, pr = (some dist, some (mn, mx)) →
      (general_query env db raw).db.session.estimated_cost_min = some mn ∧
      (general_query env db raw).db.session.estimated_cost_max = some mx ∧
      (general_query env db raw).db.detail.map (fun d => d.estimated_cost_min) =
        some (some mn) ∧
      (general_query env db raw).db.detail.map (fun d => d.estimated_cost_max) =
        some (some mx)) := by
  dsimp only
  have h1g : ¬(db.session.is_active = false ∧ db.session.state ≠ ChatState.CONFIRMED) := by
    simp [hact]
  have hstd : ∀ v, text_standardize_date env.parse_datetime env.now
      ((env.extract_fields (sanitize_input (pyStrip raw))).move_date.getD "") =
        Except.ok v → truthy (some v) = true := by
    intro v hv
    obtain ⟨d, _, hfd⟩ := standardize_ok_shape env.parse_datetime env.now _ _ v hv
    rw [hfd]
    exact truthy_formatYMD d
  have hmiss := pricedDetail_missing_nil
    (text_standardize_date env.parse_datetime env.now)
    (env.extract_fields (sanitize_input (pyStrip raw))) md h1 h2 h3 h4 hstd
  have hceq := collect_full_eq env
    (text_standardize_date env.parse_datetime env.now)
    "Would you like to proceed with booking this move? (Reply Yes/No) 👍👎"
    db.session md (sanitize_input (pyStrip raw)) hinfo hdate
  have hprc := collectAfterDate_priced env
    "Would you like to proceed with booking this move? (Reply Yes/No) 👍👎"
    (pricedSession (text_standardize_date env.parse_datetime env.now)
      (env.extract_fields (sanitize_input (pyStrip raw))) db.session)
    (pricedDetail (text_standardize_date env.parse_datetime env.now)
      (env.extract_fields (sanitize_input (pyStrip raw))) md) hmiss
  have hcc : text_collect env db.session db.detail (sanitize_input (pyStrip raw)) =
      collectAfterDate env
        "Would you like to proceed with booking this move? (Reply Yes/No) 👍👎"
        (pricedSession (text_standardize_date env.parse_datetime env.now)
          (env.extract_fields (sanitize_input (pyStrip raw))) db.session)
        (pricedDetail (text_standardize_date env.parse_datetime env.now)
          (env.extract_fields (sanitize_input (pyStrip raw))) md) := by
    rw [hdet]
    exact hceq
  rw [hprc] at hcc
  have hany : (text_collect env db.session db.detail
      (sanitize_input (pyStrip raw))).any_new_info = true := by
    rw [hcc]
    split <;> rfl
  have hrep : (text_collect env db.session db.detail
      (sanitize_input (pyStrip raw))).reply.isSome = true := by
    rw [hcc]
    split <;> rfl
  have hgq : general_query env db raw = respond
      { session := (text_collect env db.session db.detail
          (sanitize_input (pyStrip raw))).session,
        detail := (text_collect env db.session db.detail
          (sanitize_input (pyStrip raw))).detail,
        messages := db.messages ++
          [{ sender := "user", message := sanitize_input (pyStrip raw) }] }
      (text_collect env db.session db.detail (sanitize_input (pyStrip raw))).pricing_calls
      ((text_collect env db.session db.detail (sanitize_input (pyStrip raw))).reply.getD "") := by
    unfold general_query
    dsimp only
    rw [if_neg h1g]
    simp only [hfaq, Bool.false_eq_true, if_false, addMsg]
    rw [if_pos hcoll, if_pos ⟨hany, hrep⟩]
  have hne_state : db.session.state ≠ ChatState.COST_ESTIMATED := by
    intro habs
    rw [habs] at hcoll
    exact absurd hcoll (by decide)
  refine ⟨?_, ?_, ?_⟩
  · rw [hgq]
    show (text_collect env db.session db.detail
      (sanitize_input (pyStrip raw))).pricing_calls = 1
    rw [hcc]
    split <;> rfl
  · rw [hgq]
    show ((text_collect env db.session db.detail
      (sanitize_input (pyStrip raw))).session.state = ChatState.COST_ESTIMATED ↔ _)
    rw [hcc]
    split
    · next dist mn mx heq =>
      simp [heq]
    · next hne =>
      constructor
      · intro habs
        rw [pricedSession_state] at habs
        exact absurd habs hne_state
      · rintro ⟨ha, hb⟩
        obtain ⟨dist, hd⟩ := Option.isSome_iff_exists.mp ha
        obtain ⟨p, hp⟩ := Option.isSome_iff_exists.mp hb
        obtain ⟨mn, mx⟩ := p
        exact absurd (Prod.ext hd hp) (hne dist mn mx)
  · intro dist mn mx heq
    rw [hgq]
    show _ ∧ _ ∧ _ ∧ _
    rw [hcc] at *
    rw [heq] at *
    refine ⟨rfl, rfl, rfl, rfl⟩

/-- Witness for C1 at the spec's first end-to-end scenario. -/
theorem C1_pricing_trigger_witness :
    (general_query envA (dbAt ChatState.INITIAL (some mdFull))
        "from austin to dallas, 2 bedroom, on 2099-01-01").pricing_calls = 1 ∧
    (general_query envA (dbAt ChatState.INITIAL (some mdFull))
        "from austin to dallas, 2 bedroom, on 2099-01-01").db.session.state =
      ChatState.COST_ESTIMATED := by
  have h := C1_pricing_trigger envA (dbAt ChatState.INITIAL (some mdFull))
    "from austin to dallas, 2 bedroom, on 2099-01-01" mdFull rfl (by decide) rfl
    (by decide) (by decide) (by decide) (by decide) (by decide) (by decide)
    (fun _ => ⟨"2099-01-01", by decide⟩)
  obtain ⟨ha, hb, _⟩ := h
  exact ⟨ha, hb.mpr ⟨by decide, by decide⟩⟩

/-! ### C7 -/

/-- Every committed row of the pricing tail keeps the seven extractable
columns of the row it was given. -/
theorem collectAfterDate_core_fields (env : Env) (closing : String)
    (cs : ChatSession) (md : MoveDetail) :
    ∃ d, (collectAfterDate env closing cs md).detail = some d ∧
      d.origin = md.origin ∧ d.destination = md.destination ∧
      d.move_size = md.move_size ∧
      d.additional_services = md.additional_services ∧
      d.username = md.username ∧ d.contact_no = md.contact_no ∧
      d.move_date = md.move_date := by
  unfold collectAfterDate
  dsimp only
  split_ifs
  · exact ⟨md, rfl, rfl, rfl, rfl, rfl, rfl, rfl, rfl⟩
  · split
    · exact ⟨_, rfl, rfl, rfl, rfl, rfl, rfl, rfl, rfl⟩
    · exact ⟨md, rfl, rfl, rfl, rfl, rfl, rfl, rfl, rfl⟩

/-- When at least one core slot is extracted, the collect routine commits a
detail row whose extractable columns are exactly the overwritten ones. -/
theorem collect_detail_fields (env : Env) (std : String → Except String String)
    (closing : String) (cs : ChatSession) (md : MoveDetail) (t : String)
    (hinfo : (truthy (env.extract_fields t).origin ||
      truthy (env.extract_fields t).destination ||
      truthy (env.extract_fields t).move_size ||
      truthy (env.extract_fields t).move_date) = true) :
    ∃ d, (collect_or_update_move_details env std closing cs (some md) t).detail = some d ∧
      d.origin = (applyExtract (env.extract_fields t) md).origin ∧
      d.destination = (applyExtract (env.extract_fields t) md).destination ∧
      d.move_size = (applyExtract (env.extract_fields t) md).move_size ∧
      d.additional_services = (applyExtract (env.extract_fields t) md).additional_services ∧
      d.username = (applyExtract (env.extract_fields t) md).username ∧
      d.contact_no = (applyExtract (env.extract_fields t) md).contact_no ∧
      (∀ v, truthy (env.extract_fields t).move_date = true →
        std ((env.extract_fields t).move_date.getD "") = Except.ok v →
        d.move_date = some v) := by
  unfold collect_or_update_move_details
  simp only [hinfo, Bool.not_true, Bool.false_eq_true, if_false]
  by_cases htr : truthy (env.extract_fields t).move_date = true
  · cases hv : std ((env.extract_fields t).move_date.getD "") with
    | error err =>
      simp only [htr, if_true, hv]
      refine ⟨applyExtract (env.extract_fields t) md, rfl, rfl, rfl, rfl, rfl, rfl, rfl, ?_⟩
      intro v _ hv2
      cases hv2
    | ok v0 =>
      simp only [htr, if_true, hv]
      obtain ⟨d, hd, f1, f2, f3, f4, f5, f6, f7⟩ := collectAfterDate_core_fields env closing
        { cs with move_date := some v0 }
        { applyExtract (env.extract_fields t) md with move_date := some v0 }
      refine ⟨d, hd, f1, f2, f3, f4, f5, f6, ?_⟩
      intro v _ hv2
      cases hv2
      exact f7
  · simp only [htr, Bool.false_eq_true, if_false]
    have htr2 : truthy (env.extract_fields t).move_date = false := by
      simpa using htr
    obtain ⟨d, hd, f1, f2, f3, f4, f5, f6, f7⟩ := collectAfterDate_core_fields env closing
      cs (applyExtract (env.extract_fields t) md)
    refine ⟨d, hd, f1, f2, f3, f4, f5, f6, ?_⟩
    intro v htr3 _
    exact absurd htr3 (by simp [htr2])

/-- C7 as amended: when at least one of the four core slots is extracted
truthy, every truthy extracted field overwrites the corresponding MoveDetail
column, last write wins (with an extracted date written in its normalized form
when normalization succeeds); when none of the four core slots is extracted,
the routine returns immediately and writes nothing at all — in particular an
extracted name or contact number is then dropped. -/
theorem C7_overwrite_amended (env : Env) (std : String → Except String String)
    (closing : String) (cs : ChatSession) (md : MoveDetail) (t : String) :
    ((truthy (env.extract_fields t).origin ||
      truthy (env.extract_fields t).destination ||
      truthy (env.extract_fields t).move_size ||
      truthy (env.extract_fields t).move_date) = false →
      collect_or_update_move_details env std closing cs (some md) t =
        { session := cs, detail := some md, any_new_info := false,
          did_estimate := false, reply := none, pricing_calls := 0 }) ∧
    ((truthy (env.extract_fields t).origin ||
      truthy (env.extract_fields t).destination ||
      truthy (env.extract_fields t).move_size ||
      truthy (env.extract_fields t).move_date) = true →
      ∃ d, (collect_or_update_move_details env std closing cs (some md) t).detail = some d ∧
        d.origin = (if truthy (env.extract_fields t).origin then
          (env.extract_fields t).origin else md.origin) ∧
        d.destination = (if truthy (env.extract_fields t).destination then
          (env.extract_fields t).destination else md.destination) ∧
        d.move_size = (if truthy (env.extract_fields t).move_size then
          (env.extract_fields t).move_size else md.move_size) ∧
        d.additional_services = (if !(env.extract_fields t).additional_services.isEmpty then
          some (String.intercalate "," (env.extract_fields t).additional_services)
          else md.additional_services) ∧
        d.username = (if truthy (env.extract_fields t).username then
          (env.extract_fields t).username else md.username) ∧
        d.contact_no = (if truthy (env.extract_fields t).contact_no then
          (env.extract_fields t).contact_no else md.contact_no) ∧
        (∀ v, truthy (env.extract_fields t).move_date = true →
          std ((env.extract_fields t).move_date.getD "") = Except.ok v →
          d.move_date = some v)) := by
  constructor
  · intro hno
    unfold collect_or_update_move_details
    simp [hno]
  · intro hinfo
    obtain ⟨d, hd, f1, f2, f3, f4, f5, f6, f7⟩ :=
      collect_detail_fields env std closing cs md t hinfo
    rw [applyExtract_eq] at f1 f2 f3 f4 f5 f6
    exact ⟨d, hd, f1, f2, f3, f4, f5, f6, f7⟩

/-- Counterexample to C7 as stated: the extractor returns a non-null name and
no core slot, and the name is not written onto the MoveDetail row. -/
theorem C7_overwrite_counterexample :
    (envA.extract_fields "my name is Bob").username = some "Bob" ∧
    (text_collect envA { chat_id := "c1" } (some mdFull) "my name is Bob").detail =
      some mdFull ∧
    Option.map (fun d => d.username)
      (text_collect envA { chat_id := "c1" } (some mdFull) "my name is Bob").detail =
      some none := by
  exact ⟨by decide, by decide, by decide⟩

/-- Witness for the amended C7: the no-core-slot branch at a concrete input. -/
theorem C7_overwrite_witness :
    collect_or_update_move_details envA
      (text_standardize_date envA.parse_datetime envA.now)
      "Would you like to proceed with booking this move? (Reply Yes/No) 👍👎"
      { chat_id := "c1" } (some mdFull) "my name is Bob" =
      { session := { chat_id := "c1" }, detail := some mdFull, any_new_info := false,
        did_estimate := false, reply := none, pricing_calls := 0 } := by
  exact (C7_overwrite_amended envA
    (text_standardize_date envA.parse_datetime envA.now)
    "Would you like to proceed with booking this move? (Reply Yes/No) 👍👎"
    { chat_id := "c1" } mdFull "my name is Bob").1 (by decide)

/-! ### C8 -/

/-- The repricing tail of the text services sub-step: the state always
advances to the email sub-step, with one more pricing call, keeping the
updated services. -/
theorem gq_services_price_spec (env : Env) (db : Db) (md : MoveDetail) (calls : Nat) :
    (gq_services_price env db md calls).db.session.state = ChatState.COLLECTING_MOVE_DATE ∧
    (gq_services_price env db md calls).pricing_calls = calls + 1 ∧
    Option.map (fun d => d.additional_services) (gq_services_price env db md calls).db.detail =
      some md.additional_services ∧
    (gq_services_price env db md calls).response =
      Except.ok "Please share your email address for updates on your move." := by
  unfold gq_services_price
  dsimp only
  split <;> simp [respond, addMsg]

/-- A live, non-FAQ request whose extraction yields no core field reduces the
text handler to its per-state dispatch. -/
theorem gq_to_states (env : Env) (db : Db) (raw : String)
    (hact : db.session.is_active = true)
    (hfaq : is_faq_query (sanitize_input (pyStrip raw)) = false)
    (hnoinfo : (truthy (env.extract_fields (sanitize_input (pyStrip raw))).origin ||
      truthy (env.extract_fields (sanitize_input (pyStrip raw))).destination ||
      truthy (env.extract_fields (sanitize_input (pyStrip raw))).move_size ||
      truthy (env.extract_fields (sanitize_input (pyStrip raw))).move_date) = false) :
    general_query env db raw =
      gq_states env (addMsg db "user" (sanitize_input (pyStrip raw)))
        (sanitize_input (pyStrip raw)) 0 := by
  have h1g : ¬(db.session.is_active = false ∧ db.session.state ≠ ChatState.CONFIRMED) := by
    simp [hact]
  have hcno : text_collect env db.session db.detail (sanitize_input (pyStrip raw)) =
      { session := db.session, detail := db.detail, any_new_info := false,
        did_estimate := false, reply := none, pricing_calls := 0 } := by
    unfold text_collect collect_or_update_move_details
    simp [hnoinfo]
  unfold general_query
  dsimp only
  rw [if_neg h1g]
  simp only [hfaq, Bool.false_eq_true, if_false, addMsg]
  by_cases hmem : db.session.state ∈ collecting_states
  · rw [if_pos hmem, hcno]
    simp [addMsg]
  · rw [if_neg hmem]

/-- C8 as amended.  Text channel (`COLLECTING_MOVE_SIZE` services sub-step,
live session, non-FAQ input, extraction yields no core field): an input equal
to "no"/"none" after lowering and stripping clears the services, reprices once
and advances to `COLLECTING_MOVE_DATE` (the email sub-step); an input naming a
recognized service from {packing, storage} stores exactly the recognized ones,
reprices once and advances the same way; any other input repeats the services
prompt and changes nothing.  Voice channel (`AWAITING_ADDITIONAL_SERVICES`,
non-FAQ input): an input with a recognized service stores it, while any other
input — negation or not — is treated as "no additional services" and clears
them; in both voice cases the price is recomputed once and the state advances
to `COLLECTING_MOVE_DATE`, so the voice channel never repeats the prompt. -/
theorem C8_services_step (env : Env) (db vdb : Db) (raw vraw : String)
    (md vmd : MoveDetail)
    (hact : db.session.is_active = true)
    (hstate : db.session.state = ChatState.COLLECTING_MOVE_SIZE)
    (hdet : db.detail = some md)
    (hfaq : is_faq_query (sanitize_input (pyStrip raw)) = false)
    (hnoinfo : (truthy (env.extract_fields (sanitize_input (pyStrip raw))).origin ||
      truthy (env.extract_fields (sanitize_input (pyStrip raw))).destination ||
      truthy (env.extract_fields (sanitize_input (pyStrip raw))).move_size ||
      truthy (env.extract_fields (sanitize_input (pyStrip raw))).move_date) = false)
    (hvstate : vdb.session.state = ChatState.AWAITING_ADDITIONAL_SERVICES)
    (hvdet : vdb.detail = some vmd)
    (hvfaq : is_faq_query (pyStrip vraw) = false) :
    (((pyStrip (pyLower (sanitize_input (pyStrip raw))) = "no" ∨
       pyStrip (pyLower (sanitize_input (pyStrip raw))) = "none") →
      (general_query env db raw).db.session.state = ChatState.COLLECTING_MOVE_DATE ∧
      (general_query env db raw).pricing_calls = 1 ∧
      Option.map (fun d => d.additional_services) (general_query env db raw).db.detail =
        some (some "") ∧
      (general_query env db raw).response =
        Except.ok "Please share your email address for updates on your move.") ∧
     (¬(pyStrip (pyLower (sanitize_input (pyStrip raw))) = "no" ∨
        pyStrip (pyLower (sanitize_input (pyStrip raw))) = "none") →
      ((if strContains (pyStrip (pyLower (sanitize_input (pyStrip raw)))) "packing"
          then ["packing"] else []) ++
       (if strContains (pyStrip (pyLower (sanitize_input (pyStrip raw)))) "storage"
          then ["storage"] else []) = [] →
        (general_query env db raw).db.session = db.session ∧
        (general_query env db raw).db.detail = db.detail ∧
        (general_query env db raw).pricing_calls = 0 ∧
        (general_query env db raw).response =
          Except.ok "Sorry, please respond again with valid additional services (e.g., packing, storage) or 'no'.") ∧
      (∀ found, found =
        (if strContains (pyStrip (pyLower (sanitize_input (pyStrip raw)))) "packing"
          then ["packing"] else []) ++
        (if strContains (pyStrip (pyLower (sanitize_input (pyStrip raw)))) "storage"
          then ["storage"] else []) → found ≠ [] →
        (general_query env db raw).db.session.state = ChatState.COLLECTING_MOVE_DATE ∧
        (general_query env db raw).pricing_calls = 1 ∧
        Option.map (fun d => d.additional_services) (general_query env db raw).db.detail =
          some (some (String.intercalate "," found)) ∧
        (general_query env db raw).response =
          Except.ok "Please share your email address for updates on your move."))) ∧
    (∀ vfound, vfound =
      (if strContains (pyStrip (pyLower (pyStrip vraw))) "packing" then ["packing"] else []) ++
      (if strContains (pyStrip (pyLower (pyStrip vraw))) "storage" then ["storage"] else []) →
      (voice_handle_input env vdb vraw).db.session.state = ChatState.COLLECTING_MOVE_DATE ∧
      (voice_handle_input env vdb vraw).pricing_calls = 1 ∧
      Option.map (fun d => d.additional_services) (voice_handle_input env vdb vraw).db.detail =
        some (if vfound.isEmpty then some "" else some (String.intercalate "," vfound))) := by
  have hred := gq_to_states env db raw hact hfaq hnoinfo
  have hmemv := eq_false
    (by decide : ¬(ChatState.AWAITING_ADDITIONAL_SERVICES ∈ voice_collecting_states))
  refine ⟨⟨?_, ?_⟩, ?_⟩
  · intro hneg
    rw [hred]
    unfold gq_states
    dsimp only
    simp only [addMsg, hstate, hdet]
    rw [if_neg (by decide : ¬(ChatState.COLLECTING_MOVE_SIZE = ChatState.COST_ESTIMATED))]
    simp only [if_true]
    rw [if_pos hneg]
    exact gq_services_price_spec env _ _ 0
  · intro hneg
    constructor
    · intro hempty
      rw [hred]
      unfold gq_states
      dsimp only
      simp only [addMsg, hstate, hdet]
      rw [if_neg (by decide : ¬(ChatState.COLLECTING_MOVE_SIZE = ChatState.COST_ESTIMATED))]
      simp only [if_true]
      rw [if_neg hneg, hempty]
      simp [respond, addMsg]
    · intro found hfound hne
      rw [hred]
      unfold gq_states
      dsimp only
      simp only [addMsg, hstate, hdet]
      rw [if_neg (by decide : ¬(ChatState.COLLECTING_MOVE_SIZE = ChatState.COST_ESTIMATED))]
      simp only [if_true]
      rw [if_neg hneg, ← hfound]
      rw [if_neg (by simpa using hne)]
      exact gq_services_price_spec env _ _ 0
  · intro vfound hvfound
    unfold voice_handle_input
    dsimp only
    simp only [addMsg, hvfaq, Bool.false_eq_true, if_false, hvstate, hmemv, hvdet]
    rw [if_neg (by decide : ¬(ChatState.AWAITING_ADDITIONAL_SERVICES = ChatState.COST_ESTIMATED))]
    simp only [if_true]
    rw [← hvfound]
    by_cases hv : vfound.isEmpty = true
    · simp only [hv, if_true]
      refine ⟨?_, rfl, ?_⟩
      · split <;> rfl
      · split <;> rfl
    · simp only [hv, Bool.false_eq_true, if_false]
      refine ⟨?_, rfl, ?_⟩
      · split <;> rfl
      · split <;> rfl

/-- Counterexample to C8 as stated: in the voice services step, an input that
is neither a negation nor names a recognized service does not repeat the
prompt — the services are cleared and the state advances to
`COLLECTING_MOVE_DATE`. -/
theorem C8_services_counterexample :
    (voice_handle_input envA (dbAt ChatState.AWAITING_ADDITIONAL_SERVICES (some mdFull))
        "tell me a joke").db.session.state = ChatState.COLLECTING_MOVE_DATE ∧
    Option.map (fun d => d.additional_services)
      (voice_handle_input envA (dbAt ChatState.AWAITING_ADDITIONAL_SERVICES (some mdFull))
        "tell me a joke").db.detail = some (some "") := by
  exact ⟨by decide, by decide⟩

/-- Witness for the amended C8: the text negation branch and the voice
no-recognized-service branch at concrete inputs. -/
theorem C8_services_step_witness :
    (general_query envA (dbAt ChatState.COLLECTING_MOVE_SIZE (some mdFull))
        "no").db.session.state = ChatState.COLLECTING_MOVE_DATE ∧
    (voice_handle_input envA (dbAt ChatState.AWAITING_ADDITIONAL_SERVICES (some mdFull))
        "storage please").db.session.state = ChatState.COLLECTING_MOVE_DATE := by
  have h := C8_services_step envA
    (dbAt ChatState.COLLECTING_MOVE_SIZE (some mdFull))
    (dbAt ChatState.AWAITING_ADDITIONAL_SERVICES (some mdFull))
    "no" "storage please" mdFull mdFull rfl rfl rfl (by decide) (by decide) rfl rfl
    (by decide)
  exact ⟨(h.1.1 (by decide)).1, (h.2 ["storage"] (by decide)).1⟩

/-! ### C3 -/

theorem collectAfterDate_no_estimate (env : Env) (closing : String)
    (cs : ChatSession) (md : MoveDetail) :
    (collectAfterDate env closing cs md).did_estimate = false →
    (collectAfterDate env closing cs md).session.state = cs.state := by
  unfold collectAfterDate
  dsimp only
  split_ifs
  · intro _
    rfl
  · split
    · intro h
      cases h
    · intro _
      rfl

theorem collectAfterDate_reply_isSome (env : Env) (closing : String)
    (cs : ChatSession) (md : MoveDetail) :
    (collectAfterDate env closing cs md).reply.isSome = true := by
  unfold collectAfterDate
  dsimp only
  split_ifs
  · rfl
  · split <;> rfl

/-- A live, non-FAQ request in a non-collecting state reduces the text handler
to its per-state dispatch. -/
theorem gq_to_states_noncollect (env : Env) (db : Db) (raw : String)
    (hact : db.session.is_active = true)
    (hfaq : is_faq_query (sanitize_input (pyStrip raw)) = false)
    (hmem : db.session.state ∉ collecting_states) :
    general_query env db raw =
      gq_states env (addMsg db "user" (sanitize_input (pyStrip raw)))
        (sanitize_input (pyStrip raw)) 0 := by
  have h1g : ¬(db.session.is_active = false ∧ db.session.state ≠ ChatState.CONFIRMED) := by
    simp [hact]
  unfold general_query
  dsimp only
  rw [if_neg h1g]
  simp only [hfaq, Bool.false_eq_true, if_false, addMsg]
  rw [if_neg hmem]

/-- C3 as amended.  Inside the slot-filling routine every failure (rejected
date, pricing failure, still-missing slots) leaves the session's state exactly
where it was and still returns a corrective reply, with the rejected date
producing its dedicated prompt.  At the dedicated validation steps of the text
handler, a malformed email, a malformed contact number and an unrecognized
services answer each leave the whole session row unchanged and re-emit the
corrective prompt.  Exception (this is where the original claim fails): the
services sub-step of `COLLECTING_MOVE_SIZE` advances to
`COLLECTING_MOVE_DATE` whether or not its repricing call succeeds, so a
pricing failure there does not keep the state at `COLLECTING_MOVE_SIZE`. -/
theorem C3_error_handling :
    (∀ (env : Env) (std : String → Except String String) (closing : String)
        (sess : ChatSession) (det : Option MoveDetail) (t : String),
      ((collect_or_update_move_details env std closing sess det t).did_estimate = false →
        (collect_or_update_move_details env std closing sess det t).session.state =
          sess.state) ∧
      ((collect_or_update_move_details env std closing sess det t).any_new_info = true →
        (collect_or_update_move_details env std closing sess det t).reply.isSome = true) ∧
      (∀ err, truthy (env.extract_fields t).move_date = true →
        std ((env.extract_fields t).move_date.getD "") = Except.error err →
        (collect_or_update_move_details env std closing sess det t).reply =
          some (err ++ " Please provide a valid future date."))) ∧
    (∀ (env : Env) (db : Db) (raw : String) (md : MoveDetail),
      db.session.is_active = true →
      is_faq_query (sanitize_input (pyStrip raw)) = false →
      db.detail = some md →
      ((db.session.state = ChatState.COLLECTING_MOVE_DATE →
        (truthy (env.extract_fields (sanitize_input (pyStrip raw))).origin ||
          truthy (env.extract_fields (sanitize_input (pyStrip raw))).destination ||
          truthy (env.extract_fields (sanitize_input (pyStrip raw))).move_size ||
          truthy (env.extract_fields (sanitize_input (pyStrip raw))).move_date) = false →
        validate_email env (pyStrip (sanitize_input (pyStrip raw))) = none →
        (general_query env db raw).db.session = db.session ∧
        (general_query env db raw).db.detail = db.detail ∧
        (general_query env db raw).response =
          Except.ok "Invalid email format. Please provide a valid email address.") ∧
      (db.session.state = ChatState.AWAITING_CONTACT →
        validate_and_normalize_contact_number (pyStrip (sanitize_input (pyStrip raw))) = none →
        (general_query env db raw).db.session = db.session ∧
        (general_query env db raw).db.detail = db.detail ∧
        (general_query env db raw).response =
          Except.ok "Invalid contact number format. Please provide a valid 10-digit contact number.") ∧
      (db.session.state = ChatState.COLLECTING_MOVE_SIZE →
        (truthy (env.extract_fields (sanitize_input (pyStrip raw))).origin ||
          truthy (env.extract_fields (sanitize_input (pyStrip raw))).destination ||
          truthy (env.extract_fields (sanitize_input (pyStrip raw))).move_size ||
          truthy (env.extract_fields (sanitize_input (pyStrip raw))).move_date) = false →
        ¬(pyStrip (pyLower (sanitize_input (pyStrip raw))) = "no" ∨
          pyStrip (pyLower (sanitize_input (pyStrip raw))) = "none") →
        ((if strContains (pyStrip (pyLower (sanitize_input (pyStrip raw)))) "packing"
            then ["packing"] else []) ++
         (if strContains (pyStrip (pyLower (sanitize_input (pyStrip raw)))) "storage"
            then ["storage"] else [])) = [] →
        (general_query env db raw).db.session = db.session ∧
        (general_query env db raw).db.detail = db.detail ∧
        (general_query env db raw).response =
          Except.ok "Sorry, please respond again with valid additional services (e.g., packing, storage) or 'no'."))) ∧
    (∀ (env : Env) (db : Db) (md : MoveDetail) (calls : Nat),
      (gq_services_price env db md calls).db.session.state =
        ChatState.COLLECTING_MOVE_DATE) := by
  refine ⟨?_, ?_, ?_⟩
  · intro env std closing sess det t
    refine ⟨?_, ?_, ?_⟩
    · unfold collect_or_update_move_details
      dsimp only
      by_cases hany : (truthy (env.extract_fields t).origin ||
          truthy (env.extract_fields t).destination ||
          truthy (env.extract_fields t).move_size ||
          truthy (env.extract_fields t).move_date) = true
      · simp only [hany, Bool.not_true, Bool.false_eq_true, if_false]
        by_cases htr : truthy (env.extract_fields t).move_date = true
        · cases hv : std ((env.extract_fields t).move_date.getD "") with
          | error err =>
            simp only [htr, if_true, hv]
            intro h
            trivial
          | ok v =>
            simp only [htr, if_true, hv]
            intro h
            exact collectAfterDate_no_estimate env closing _ _ h
        · simp only [htr, Bool.false_eq_true, if_false]
          intro h
          exact collectAfterDate_no_estimate env closing _ _ h
      · have hany2 : (truthy (env.extract_fields t).origin ||
            truthy (env.extract_fields t).destination ||
            truthy (env.extract_fields t).move_size ||
            truthy (env.extract_fields t).move_date) = false := by
          simpa using hany
        simp only [hany2, Bool.not_false, if_true]
        intro h
        trivial
    · unfold collect_or_update_move_details
      dsimp only
      by_cases hany : (truthy (env.extract_fields t).origin ||
          truthy (env.extract_fields t).destination ||
          truthy (env.extract_fields t).move_size ||
          truthy (env.extract_fields t).move_date) = true
      · simp only [hany, Bool.not_true, Bool.false_eq_true, if_false]
        by_cases htr : truthy (env.extract_fields t).move_date = true
        · cases hv : std ((env.extract_fields t).move_date.getD "") with
          | error err =>
            simp only [htr, if_true, hv]
            intro h
            trivial
          | ok v =>
            simp only [htr, if_true, hv]
            intro _
            exact collectAfterDate_reply_isSome env closing _ _
        · simp only [htr, Bool.false_eq_true, if_false]
          intro _
          exact collectAfterDate_reply_isSome env closing _ _
      · have hany2 : (truthy (env.extract_fields t).origin ||
            truthy (env.extract_fields t).destination ||
            truthy (env.extract_fields t).move_size ||
            truthy (env.extract_fields t).move_date) = false := by
          simpa using hany
        simp only [hany2, Bool.not_false, if_true]
        intro h
        trivial
    · intro err htr herr
      unfold collect_or_update_move_details
      simp only [htr, Bool.or_true, Bool.not_true, Bool.false_eq_true, if_false,
        if_true, herr]
  · intro env db raw md hact hfaq hdet
    refine ⟨?_, ?_, ?_⟩
    · intro hstate hnoinfo hval
      rw [gq_to_states env db raw hact hfaq hnoinfo]
      unfold gq_states
      dsimp only
      simp only [addMsg, hstate, hdet]
      rw [if_neg (by decide : ¬(ChatState.COLLECTING_MOVE_DATE = ChatState.COST_ESTIMATED))]
      rw [if_neg (by decide : ¬(ChatState.COLLECTING_MOVE_DATE = ChatState.COLLECTING_MOVE_SIZE))]
      simp only [if_true]
      rw [hval]
      simp [respond, addMsg, hdet]
    · intro hstate hval
      rw [gq_to_states_noncollect env db raw hact hfaq (by rw [hstate]; decide)]
      unfold gq_states
      dsimp only
      simp only [addMsg, hstate, hdet]
      rw [if_neg (by decide : ¬(ChatState.AWAITING_CONTACT = ChatState.COST_ESTIMATED))]
      rw [if_neg (by decide : ¬(ChatState.AWAITING_CONTACT = ChatState.COLLECTING_MOVE_SIZE))]
      rw [if_neg (by decide : ¬(ChatState.AWAITING_CONTACT = ChatState.COLLECTING_MOVE_DATE))]
      rw [if_neg (by decide : ¬(ChatState.AWAITING_CONTACT = ChatState.AWAITING_NAME))]
      simp only [if_true]
      rw [hval]
      simp [respond, addMsg, hdet]
    · intro hstate hnoinfo hneg hempty
      rw [gq_to_states env db raw hact hfaq hnoinfo]
      unfold gq_states
      dsimp only
      simp only [addMsg, hstate, hdet]
      rw [if_neg (by decide : ¬(ChatState.COLLECTING_MOVE_SIZE = ChatState.COST_ESTIMATED))]
      simp only [if_true]
      rw [if_neg hneg, hempty]
      simp [respond, addMsg, hdet]
  · intro env db md calls
    exact (gq_services_price_spec env db md calls).1

/-- Counterexample to C3 as stated: in the services sub-step of
`COLLECTING_MOVE_SIZE` the pricing oracle fails (no distance, no cost tuple),
yet the state advances to `COLLECTING_MOVE_DATE` instead of staying. -/
theorem C3_error_handling_counterexample :
    envFail.estimate_cost (some "austin") (some "dallas") (some "2 bedroom")
      ["packing"] (some "2099-01-01") = (none, none) ∧
    (general_query envFail (dbAt ChatState.COLLECTING_MOVE_SIZE (some mdFull))
        "packing").db.session.state = ChatState.COLLECTING_MOVE_DATE := by
  exact ⟨by decide, by decide⟩

/-- Witness for the amended C3: a rejected date keeps the state, an invalid
contact number keeps the whole session row, and the services sub-step advances
even with a failing pricing oracle. -/
theorem C3_error_handling_witness :
    (collect_or_update_move_details envA
        (text_standardize_date envA.parse_datetime envA.now) "x"
        { chat_id := "c1" } none "moving on 2020-01-01").session.state =
      ChatState.INITIAL ∧
    (general_query envA (dbAt ChatState.AWAITING_CONTACT (some mdFull))
        "12a").db.session = (dbAt ChatState.AWAITING_CONTACT (some mdFull)).session ∧
    (gq_services_price envFail (dbAt ChatState.COLLECTING_MOVE_SIZE (some mdFull))
        mdFull 0).db.session.state = ChatState.COLLECTING_MOVE_DATE := by
  refine ⟨?_, ?_, ?_⟩
  · exact (C3_error_handling.1 envA
      (text_standardize_date envA.parse_datetime envA.now) "x"
      { chat_id := "c1" } none "moving on 2020-01-01").1 (by decide)
  · exact ((C3_error_handling.2.1 envA (dbAt ChatState.AWAITING_CONTACT (some mdFull))
      "12a" mdFull rfl (by decide) rfl).2.1 rfl (by decide)).1
  · exact C3_error_handling.2.2 envFail
      (dbAt ChatState.COLLECTING_MOVE_SIZE (some mdFull)) mdFull 0

/-! ### C4 -/

theorem collect_no_info (env : Env) (std : String → Except String String)
    (closing : String) (cs : ChatSession) (det : Option MoveDetail) (t : String)
    (hany : (truthy (env.extract_fields t).origin ||
      truthy (env.extract_fields t).destination ||
      truthy (env.extract_fields t).move_size ||
      truthy (env.extract_fields t).move_date) = false) :
    collect_or_update_move_details env std closing cs det t =
      { session := cs, detail := det, any_new_info := false,
        did_estimate := false, reply := none, pricing_calls := 0 } := by
  unfold collect_or_update_move_details
  simp [hany]

theorem collect_reply_some (env : Env) (std : String → Except String String)
    (closing : String) (cs : ChatSession) (det : Option MoveDetail) (t : String)
    (hany : (truthy (env.extract_fields t).origin ||
      truthy (env.extract_fields t).destination ||
      truthy (env.extract_fields t).move_size ||
      truthy (env.extract_fields t).move_date) = true) :
    (collect_or_update_move_details env std closing cs det t).reply.isSome = true := by
  unfold collect_or_update_move_details
  dsimp only
  simp only [hany, Bool.not_true, Bool.false_eq_true, if_false]
  by_cases htr : truthy (env.extract_fields t).move_date = true
  · cases hv : std ((env.extract_fields t).move_date.getD "") with
    | error err =>
      simp only [htr, if_true, hv]
      rfl
    | ok v =>
      simp only [htr, if_true, hv]
      exact collectAfterDate_reply_isSome env closing _ _
  · simp only [htr, Bool.false_eq_true, if_false]
    exact collectAfterDate_reply_isSome env closing _ _

/-- The pricing tail either keeps the detail row's state (and the session's),
or sets both to `COST_ESTIMATED`. -/
theorem collectAfterDate_state_pair (env : Env) (closing : String)
    (cs : ChatSession) (md : MoveDetail) :
    ((collectAfterDate env closing cs md).detail.map (fun d => d.state) = some md.state ∧
     (collectAfterDate env closing cs md).session.state = cs.state) ∨
    ((collectAfterDate env closing cs md).detail.map (fun d => d.state) =
       some ChatState.COST_ESTIMATED ∧
     (collectAfterDate env closing cs md).session.state = ChatState.COST_ESTIMATED) := by
  unfold collectAfterDate
  dsimp only
  split_ifs
  · left
    exact ⟨rfl, rfl⟩
  · split
    · right
      exact ⟨rfl, rfl⟩
    · left
      exact ⟨rfl, rfl⟩

/-- The collect routine either keeps the detail row's state, or lazily creates
the row in state `INITIAL`, or sets the detail and session states together to
`COST_ESTIMATED`. -/
theorem collect_detail_state (env : Env) (std : String → Except String String)
    (closing : String) (cs : ChatSession) (det : Option MoveDetail) (t : String) :
    ((collect_or_update_move_details env std closing cs det t).detail.map
        (fun d => d.state) = det.map (fun d => d.state)) ∨
    (det = none ∧ (collect_or_update_move_details env std closing cs det t).detail.map
        (fun d => d.state) = some ChatState.INITIAL) ∨
    ((collect_or_update_move_details env std closing cs det t).detail.map
        (fun d => d.state) = some ChatState.COST_ESTIMATED ∧
     (collect_or_update_move_details env std closing cs det t).session.state =
       ChatState.COST_ESTIMATED) := by
  by_cases hany : (truthy (env.extract_fields t).origin ||
      truthy (env.extract_fields t).destination ||
      truthy (env.extract_fields t).move_size ||
      truthy (env.extract_fields t).move_date) = true
  case neg =>
    rw [collect_no_info env std closing cs det t (by simpa using hany)]
    left
    rfl
  case pos =>
    unfold collect_or_update_move_details
    dsimp only
    simp only [hany, Bool.not_true, Bool.false_eq_true, if_false]
    cases det with
    | none =>
      by_cases htr : truthy (env.extract_fields t).move_date = true
      · cases hv : std ((env.extract_fields t).move_date.getD "") with
        | error err =>
          simp only [htr, if_true, hv]
          right
          left
          exact ⟨by trivial, by simp [applyExtract_state]⟩
        | ok v =>
          simp only [htr, if_true, hv]
          rcases collectAfterDate_state_pair env closing
            { cs with move_date := some v }
            { applyExtract (env.extract_fields t) { chat_id := cs.chat_id } with
              move_date := some v } with ⟨hd, _⟩ | ⟨hd, hs⟩
          · right
            left
            refine ⟨by trivial, ?_⟩
            rw [hd]
            simp [applyExtract_state]
          · right
            right
            exact ⟨hd, hs⟩
      · simp only [htr, Bool.false_eq_true, if_false]
        rcases collectAfterDate_state_pair env closing cs
          (applyExtract (env.extract_fields t) { chat_id := cs.chat_id }) with
          ⟨hd, _⟩ | ⟨hd, hs⟩
        · right
          left
          refine ⟨by trivial, ?_⟩
          rw [hd]
          simp [applyExtract_state]
        · right
          right
          exact ⟨hd, hs⟩
    | some md =>
      by_cases htr : truthy (env.extract_fields t).move_date = true
      · cases hv : std ((env.extract_fields t).move_date.getD "") with
        | error err =>
          simp only [htr, if_true, hv]
          left
          simp [applyExtract_state]
        | ok v =>
          simp only [htr, if_true, hv]
          rcases collectAfterDate_state_pair env closing
            { cs with move_date := some v }
            { applyExtract (env.extract_fields t) md with move_date := some v } with
            ⟨hd, _⟩ | ⟨hd, hs⟩
          · left
            rw [hd]
            simp [applyExtract_state]
          · right
            right
            exact ⟨hd, hs⟩
      · simp only [htr, Bool.false_eq_true, if_false]
        rcases collectAfterDate_state_pair env closing cs
          (applyExtract (env.extract_fields t) md) with ⟨hd, _⟩ | ⟨hd, hs⟩
        · left
          rw [hd]
          simp [applyExtract_state]
        · right
          right
          exact ⟨hd, hs⟩

theorem collectAfterDate_any (env : Env) (closing : String)
    (cs : ChatSession) (md : MoveDetail) :
    (collectAfterDate env closing cs md).any_new_info = true := by
  unfold collectAfterDate
  dsimp only
  split_ifs
  · rfl
  · split <;> rfl

theorem collect_any_true (env : Env) (std : String → Except String String)
    (closing : String) (cs : ChatSession) (det : Option MoveDetail) (t : String)
    (hany : (truthy (env.extract_fields t).origin ||
      truthy (env.extract_fields t).destination ||
      truthy (env.extract_fields t).move_size ||
      truthy (env.extract_fields t).move_date) = true) :
    (collect_or_update_move_details env std closing cs det t).any_new_info = true := by
  unfold collect_or_update_move_details
  dsimp only
  simp only [hany, Bool.not_true, Bool.false_eq_true, if_false]
  by_cases htr : truthy (env.extract_fields t).move_date = true
  · cases hv : std ((env.extract_fields t).move_date.getD "") with
    | error err =>
      simp only [htr, if_true, hv]
    | ok v =>
      simp only [htr, if_true, hv]
      exact collectAfterDate_any env closing _ _
  · simp only [htr, Bool.false_eq_true, if_false]
    exact collectAfterDate_any env closing _ _

theorem gq_services_price_detail_state (env : Env) (db : Db) (md : MoveDetail)
    (calls : Nat) :
    (gq_services_price env db md calls).db.detail.map (fun d => d.state) =
      some md.state := by
  unfold gq_services_price
  dsimp only
  split <;> rfl

/-- Every branch of the per-state dispatch either keeps the detail row's
state, or (through the `MODIFY_DETAILS` re-collect) lazily creates the row in
`INITIAL` or moves detail and session together to `COST_ESTIMATED`. -/
theorem gq_states_detail_state (env : Env) (db : Db) (u : String) (calls : Nat) :
    ((gq_states env db u calls).db.detail.map (fun d => d.state) =
      db.detail.map (fun d => d.state)) ∨
    (db.detail = none ∧ (gq_states env db u calls).db.detail.map (fun d => d.state) =
      some ChatState.INITIAL) ∨
    ((gq_states env db u calls).db.detail.map (fun d => d.state) =
      some ChatState.COST_ESTIMATED ∧
     (gq_states env db u calls).db.session.state = ChatState.COST_ESTIMATED) := by
  cases hst : db.session.state with
  | INITIAL =>
    unfold gq_states
    dsimp only
    simp only [hst, reduceCtorEq, if_false, Bool.false_eq_true]
    left
    rfl
  | AWAITING_DETAILS =>
    unfold gq_states
    dsimp only
    simp only [hst, reduceCtorEq, if_false, Bool.false_eq_true]
    left
    rfl
  | CONFIRMED =>
    unfold gq_states
    dsimp only
    simp only [hst, reduceCtorEq, if_false, Bool.false_eq_true]
    left
    rfl
  | AWAITING_ADDITIONAL_SERVICES =>
    unfold gq_states
    dsimp only
    simp only [hst, reduceCtorEq, if_false, Bool.false_eq_true]
    left
    rfl
  | COST_ESTIMATED =>
    unfold gq_states
    dsimp only
    simp only [hst, if_true]
    split_ifs <;> (left; rfl)
  | COLLECTING_MOVE_SIZE =>
    unfold gq_states
    dsimp only
    simp only [hst, reduceCtorEq, if_false, Bool.false_eq_true, if_true]
    cases hd : db.detail with
    | none =>
      left
      simp [respond, addMsg, hd]
    | some md =>
      dsimp only
      by_cases hneg : (pyStrip (pyLower u) = "no" ∨ pyStrip (pyLower u) = "none")
      · rw [if_pos hneg]
        left
        rw [gq_services_price_detail_state]
        rfl
      · rw [if_neg hneg]
        by_cases hemp : ((if strContains (pyStrip (pyLower u)) "packing" then ["packing"]
            else []) ++
          (if strContains (pyStrip (pyLower u)) "storage" then ["storage"]
            else [])).isEmpty = true
        · rw [if_pos hemp]
          left
          simp [respond, addMsg, hd]
        · rw [if_neg hemp]
          left
          rw [gq_services_price_detail_state]
          rfl
  | COLLECTING_MOVE_DATE =>
    unfold gq_states
    dsimp only
    simp only [hst, reduceCtorEq, if_false, Bool.false_eq_true, if_true]
    cases hd : db.detail with
    | none =>
      left
      simp [respond, addMsg, hd]
    | some md =>
      dsimp only
      cases hv : validate_email env (pyStrip u) with
      | none =>
        left
        simp [respond, addMsg, hd]
      | some em =>
        left
        rfl
  | AWAITING_NAME =>
    unfold gq_states
    dsimp only
    simp only [hst, reduceCtorEq, if_false, Bool.false_eq_true, if_true]
    split_ifs
    · left
      rfl
    · cases hd : db.detail with
      | none =>
        left
        rfl
      | some md =>
        left
        rfl
  | AWAITING_CONTACT =>
    unfold gq_states
    dsimp only
    simp only [hst, reduceCtorEq, if_false, Bool.false_eq_true, if_true]
    cases hv : validate_and_normalize_contact_number (pyStrip u) with
    | none =>
      left
      rfl
    | some c =>
      cases hd : db.detail with
      | none =>
        left
        rfl
      | some md =>
        left
        rfl
  | AWAITING_FINAL_CONFIRMATION =>
    unfold gq_states
    dsimp only
    simp only [hst, reduceCtorEq, if_false, Bool.false_eq_true, if_true]
    split_ifs <;> (left; rfl)
  | MODIFY_DETAILS =>
    unfold gq_states
    dsimp only
    simp only [hst, reduceCtorEq, if_false, Bool.false_eq_true, if_true]
    by_cases hany : (truthy (env.extract_fields u).origin ||
        truthy (env.extract_fields u).destination ||
        truthy (env.extract_fields u).move_size ||
        truthy (env.extract_fields u).move_date) = true
    · have hca := collect_any_true env
        (text_standardize_date env.parse_datetime env.now)
        "Would you like to proceed with booking this move? (Reply Yes/No) 👍👎"
        db.session db.detail u hany
      have hcr := collect_reply_some env
        (text_standardize_date env.parse_datetime env.now)
        "Would you like to proceed with booking this move? (Reply Yes/No) 👍👎"
        db.session db.detail u hany
      have hca2 : (text_collect env db.session db.detail u).any_new_info = true := hca
      have hcr2 : (text_collect env db.session db.detail u).reply.isSome = true := hcr
      rw [if_pos ⟨hca2, hcr2⟩]
      rcases collect_detail_state env
        (text_standardize_date env.parse_datetime env.now)
        "Would you like to proceed with booking this move? (Reply Yes/No) 👍👎"
        db.session db.detail u with h | ⟨hn, h⟩ | ⟨h1, h2⟩
      · left
        exact h
      · right
        left
        exact ⟨hn, h⟩
      · right
        right
        exact ⟨h1, h2⟩
    · have hno := collect_no_info env
        (text_standardize_date env.parse_datetime env.now)
        "Would you like to proceed with booking this move? (Reply Yes/No) 👍👎"
        db.session db.detail u (by simpa using hany)
      have hno2 : text_collect env db.session db.detail u =
          { session := db.session, detail := db.detail, any_new_info := false,
            did_estimate := false, reply := none, pricing_calls := 0 } := hno
      rw [if_neg (by rw [hno2]; simp)]
      left
      rw [hno2]
      rfl

/-- C4 as amended: one full step of the text handler either leaves the
move-detail row's state exactly as it was, or lazily creates the row in state
`INITIAL`, or — only on the slot-filling pricing success — sets the
move-detail state and the session state together to `COST_ESTIMATED`.  Every
other transition (the yes/no gates at `COST_ESTIMATED`, the email, name and
contact steps, final confirmation) updates the session state only, so the
MoveDetail state is not kept in lockstep with the session and can run ahead of
it. -/
theorem C4_state_pairing (env : Env) (db : Db) (raw : String) :
    ((general_query env db raw).db.detail.map (fun d => d.state) =
      db.detail.map (fun d => d.state)) ∨
    (db.detail = none ∧ (general_query env db raw).db.detail.map (fun d => d.state) =
      some ChatState.INITIAL) ∨
    ((general_query env db raw).db.detail.map (fun d => d.state) =
      some ChatState.COST_ESTIMATED ∧
     (general_query env db raw).db.session.state = ChatState.COST_ESTIMATED) := by
  by_cases hg : (db.session.is_active = false ∧ db.session.state ≠ ChatState.CONFIRMED)
  · unfold general_query
    dsimp only
    rw [if_pos hg]
    left
    rfl
  · unfold general_query
    dsimp only
    rw [if_neg hg]
    by_cases hf : is_faq_query (sanitize_input (pyStrip raw)) = true
    · simp only [hf, if_true]
      left
      rfl
    · simp only [hf, Bool.false_eq_true, if_false, addMsg]
      by_cases hm : db.session.state ∈ collecting_states
      · rw [if_pos hm]
        by_cases hany : (truthy (env.extract_fields (sanitize_input (pyStrip raw))).origin ||
            truthy (env.extract_fields (sanitize_input (pyStrip raw))).destination ||
            truthy (env.extract_fields (sanitize_input (pyStrip raw))).move_size ||
            truthy (env.extract_fields (sanitize_input (pyStrip raw))).move_date) = true
        · have hca := collect_any_true env
            (text_standardize_date env.parse_datetime env.now)
            "Would you like to proceed with booking this move? (Reply Yes/No) 👍👎"
            db.session db.detail (sanitize_input (pyStrip raw)) hany
          have hcr := collect_reply_some env
            (text_standardize_date env.parse_datetime env.now)
            "Would you like to proceed with booking this move? (Reply Yes/No) 👍👎"
            db.session db.detail (sanitize_input (pyStrip raw)) hany
          have hca2 : (text_collect env db.session db.detail
            (sanitize_input (pyStrip raw))).any_new_info = true := hca
          have hcr2 : (text_collect env db.session db.detail
            (sanitize_input (pyStrip raw))).reply.isSome = true := hcr
          rw [if_pos ⟨hca2, hcr2⟩]
          rcases collect_detail_state env
            (text_standardize_date env.parse_datetime env.now)
            "Would you like to proceed with booking this move? (Reply Yes/No) 👍👎"
            db.session db.detail (sanitize_input (pyStrip raw)) with h | ⟨hn, h⟩ | ⟨h1, h2⟩
          · left
            exact h
          · right
            left
            exact ⟨hn, h⟩
          · right
            right
            exact ⟨h1, h2⟩
        · have hno := collect_no_info env
            (text_standardize_date env.parse_datetime env.now)
            "Would you like to proceed with booking this move? (Reply Yes/No) 👍👎"
            db.session db.detail (sanitize_input (pyStrip raw)) (by simpa using hany)
          have hno2 : text_collect env db.session db.detail
              (sanitize_input (pyStrip raw)) =
              { session := db.session, detail := db.detail, any_new_info := false,
                did_estimate := false, reply := none, pricing_calls := 0 } := hno
          rw [if_neg (by rw [hno2]; simp)]
          rw [hno2]
          rcases gq_states_detail_state env
            { session := db.session, detail := db.detail,
              messages := db.messages ++
                [{ sender := "user", message := sanitize_input (pyStrip raw) }] }
            (sanitize_input (pyStrip raw)) 0 with h | ⟨hn, h⟩ | ⟨h1, h2⟩
          · left
            exact h
          · right
            left
            exact ⟨hn, h⟩
          · right
            right
            exact ⟨h1, h2⟩
      · rw [if_neg hm]
        rcases gq_states_detail_state env
          { session := db.session, detail := db.detail,
            messages := db.messages ++
              [{ sender := "user", message := sanitize_input (pyStrip raw) }] }
          (sanitize_input (pyStrip raw)) 0 with h | ⟨hn, h⟩ | ⟨h1, h2⟩
        · left
          exact h
        · right
          left
          exact ⟨hn, h⟩
        · right
          right
          exact ⟨h1, h2⟩

/-- Counterexample to C4 as stated: at the `COST_ESTIMATED` no-gate the
session falls back to `INITIAL` while its MoveDetail stays at
`COST_ESTIMATED` — the two states are not updated together, and the
MoveDetail's state now leads the session's. -/
theorem C4_state_pairing_counterexample :
    (general_query envA (dbAt ChatState.COST_ESTIMATED (some mdFull))
        "no").db.session.state = ChatState.INITIAL ∧
    Option.map (fun d => d.state)
      (general_query envA (dbAt ChatState.COST_ESTIMATED (some mdFull))
        "no").db.detail = some ChatState.COST_ESTIMATED := by
  exact ⟨by decide, by decide⟩

/-! ### C9 -/

theorem applyExtract_idem (e : Extracted) (m : MoveDetail) :
    applyExtract e (applyExtract e m) = applyExtract e m := by
  simp only [applyExtract_eq]
  split_ifs <;> rfl

theorem applyExtract_move_date_comm (e : Extracted) (m : MoveDetail) (x : Option String) :
    applyExtract e { m with move_date := x } = { applyExtract e m with move_date := x } := by
  simp only [applyExtract_eq]

theorem applyExtract_costs_comm (e : Extracted) (m : MoveDetail)
    (a b : Option Int) (s : ChatState) :
    applyExtract e { m with estimated_cost_min := a, estimated_cost_max := b, state := s } =
      { applyExtract e m with estimated_cost_min := a, estimated_cost_max := b, state := s } := by
  simp only [applyExtract_eq]

/-- A collect run on a row already stable under the extractor's overwrites
(and whose date column already holds the normalized extracted date) reduces to
its pricing tail with no further writes. -/
theorem collect_stable (env : Env) (std : String → Except String String)
    (closing : String) (cs : ChatSession) (m : MoveDetail) (t : String)
    (hany : (truthy (env.extract_fields t).origin ||
      truthy (env.extract_fields t).destination ||
      truthy (env.extract_fields t).move_size ||
      truthy (env.extract_fields t).move_date) = true)
    (hstable : applyExtract (env.extract_fields t) m = m)
    (hdok : truthy (env.extract_fields t).move_date = true →
      ∃ v, std ((env.extract_fields t).move_date.getD "") = Except.ok v ∧
        m.move_date = some v ∧ cs.move_date = some v) :
    collect_or_update_move_details env std closing cs (some m) t =
      collectAfterDate env closing cs m := by
  unfold collect_or_update_move_details
  dsimp only
  simp only [hany, Bool.not_true, Bool.false_eq_true, if_false, hstable]
  by_cases htr : truthy (env.extract_fields t).move_date = true
  · obtain ⟨v, hv, hm, hc⟩ := hdok htr
    simp only [htr, if_true, hv]
    have h1 : { cs with move_date := some v } = cs := by
      conv_lhs => rw [← hc]
    have h2 : { m with move_date := some v } = m := by
      conv_lhs => rw [← hm]
    rw [h1, h2]
  · simp only [htr, Bool.false_eq_true, if_false]

theorem collectAfterDate_eq_missing (env : Env) (closing : String)
    (cs : ChatSession) (m : MoveDetail)
    (hempty : (missingFields m).isEmpty = false) :
    collectAfterDate env closing cs m =
      { session := cs, detail := some m, any_new_info := true, did_estimate := false,
        reply := some ("I still need your " ++ String.intercalate ", " (missingFields m) ++
          " to provide an estimate."),
        pricing_calls := 0 } := by
  unfold collectAfterDate
  dsimp only
  rw [hempty]
  simp

theorem collectAfterDate_eq_success (env : Env) (closing : String)
    (cs : ChatSession) (m : MoveDetail) (dist mn mx : Int)
    (hempty : (missingFields m).isEmpty = true)
    (hpr : env.estimate_cost m.origin m.destination m.move_size
      (servicesList m.additional_services) m.move_date = (some dist, some (mn, mx))) :
    collectAfterDate env closing cs m =
      { session := { cs with
          estimated_cost_min := some mn, estimated_cost_max := some mx,
          state := ChatState.COST_ESTIMATED },
        detail := some { m with
          estimated_cost_min := some mn, estimated_cost_max := some mx,
          state := ChatState.COST_ESTIMATED },
        any_new_info := true, did_estimate := true,
        reply := some (estimateReply { m with
          estimated_cost_min := some mn, estimated_cost_max := some mx,
          state := ChatState.COST_ESTIMATED } mn mx closing),
        pricing_calls := 1 } := by
  unfold collectAfterDate
  dsimp only
  rw [hempty]
  simp only [Bool.not_true, Bool.false_eq_true, if_false, hpr]

theorem collectAfterDate_eq_fail (env : Env) (closing : String)
    (cs : ChatSession) (m : MoveDetail)
    (hempty : (missingFields m).isEmpty = true)
    (hpr : ∀ (dist mn mx : Int), env.estimate_cost m.origin m.destination m.move_size
      (servicesList m.additional_services) m.move_date ≠ (some dist, some (mn, mx))) :
    collectAfterDate env closing cs m =
      { session := cs, detail := some m, any_new_info := true, did_estimate := false,
        reply := some "I'm having trouble calculating the cost. Please verify locations or try again.",
        pricing_calls := 1 } := by
  unfold collectAfterDate
  dsimp only
  rw [hempty]
  simp only [Bool.not_true, Bool.false_eq_true, if_false]

/-- A collect run whose starting rows are the output of a pricing tail, with the
same extraction incoming, reproduces that pricing tail's output exactly. -/
theorem collect_after_cAD (env : Env) (std : String → Except String String)
    (closing : String) (cs : ChatSession) (m : MoveDetail) (t : String)
    (hany : (truthy (env.extract_fields t).origin ||
      truthy (env.extract_fields t).destination ||
      truthy (env.extract_fields t).move_size ||
      truthy (env.extract_fields t).move_date) = true)
    (hstable : applyExtract (env.extract_fields t) m = m)
    (hdok : truthy (env.extract_fields t).move_date = true →
      ∃ v, std ((env.extract_fields t).move_date.getD "") = Except.ok v ∧
        m.move_date = some v ∧ cs.move_date = some v) :
    collect_or_update_move_details env std closing
      (collectAfterDate env closing cs m).session
      (collectAfterDate env closing cs m).detail t =
    collectAfterDate env closing cs m := by
  by_cases hempty : (missingFields m).isEmpty = true
  · rcases hq : env.estimate_cost m.origin m.destination m.move_size
      (servicesList m.additional_services) m.move_date with ⟨d, r⟩
    cases d with
    | none =>
      have hpr : ∀ (dist mn mx : Int), env.estimate_cost m.origin m.destination m.move_size
          (servicesList m.additional_services) m.move_date ≠ (some dist, some (mn, mx)) := by
        intro dist mn mx h
        rw [hq] at h
        simp at h
      have hAD := collectAfterDate_eq_fail env closing cs m hempty hpr
      rw [hAD]
      exact (collect_stable env std closing cs m t hany hstable hdok).trans hAD
    | some dist =>
      cases r with
      | none =>
        have hpr : ∀ (dist mn mx : Int), env.estimate_cost m.origin m.destination m.move_size
            (servicesList m.additional_services) m.move_date ≠ (some dist, some (mn, mx)) := by
          intro dist mn mx h
          rw [hq] at h
          simp at h
        have hAD := collectAfterDate_eq_fail env closing cs m hempty hpr
        rw [hAD]
        exact (collect_stable env std closing cs m t hany hstable hdok).trans hAD
      | some pr =>
        obtain ⟨mn, mx⟩ := pr
        have hAD := collectAfterDate_eq_success env closing cs m dist mn mx hempty hq
        rw [hAD]
        have hstab2 : applyExtract (env.extract_fields t)
            { m with
              estimated_cost_min := some mn
              estimated_cost_max := some mx
              state := ChatState.COST_ESTIMATED } =
            { m with
              estimated_cost_min := some mn
              estimated_cost_max := some mx
              state := ChatState.COST_ESTIMATED } := by
          rw [applyExtract_costs_comm, hstable]
        have hdok2 : truthy (env.extract_fields t).move_date = true →
            ∃ v, std ((env.extract_fields t).move_date.getD "") = Except.ok v ∧
              ({ m with
                estimated_cost_min := some mn
                estimated_cost_max := some mx
                state := ChatState.COST_ESTIMATED } : MoveDetail).move_date = some v ∧
              ({ cs with
                estimated_cost_min := some mn
                estimated_cost_max := some mx
                state := ChatState.COST_ESTIMATED } : ChatSession).move_date = some v := by
          intro htr
          obtain ⟨v, hv, hm, hc⟩ := hdok htr
          exact ⟨v, hv, hm, hc⟩
        have h2 := collect_stable env std closing
          { cs with
            estimated_cost_min := some mn
            estimated_cost_max := some mx
            state := ChatState.COST_ESTIMATED }
          { m with
            estimated_cost_min := some mn
            estimated_cost_max := some mx
            state := ChatState.COST_ESTIMATED } t hany hstab2 hdok2
        have hAD2 : collectAfterDate env closing
            { cs with
              estimated_cost_min := some mn
              estimated_cost_max := some mx
              state := ChatState.COST_ESTIMATED }
            { m with
              estimated_cost_min := some mn
              estimated_cost_max := some mx
              state := ChatState.COST_ESTIMATED } =
            { session := { cs with
                estimated_cost_min := some mn
                estimated_cost_max := some mx
                state := ChatState.COST_ESTIMATED }
              detail := some { m with
                estimated_cost_min := some mn
                estimated_cost_max := some mx
                state := ChatState.COST_ESTIMATED }
              any_new_info := true
              did_estimate := true
              reply := some (estimateReply { m with
                estimated_cost_min := some mn
                estimated_cost_max := some mx
                state := ChatState.COST_ESTIMATED } mn mx closing)
              pricing_calls := 1 } :=
          collectAfterDate_eq_success env closing _ _ dist mn mx hempty hq
        exact h2.trans hAD2
  · have hef : (missingFields m).isEmpty = false := by
      cases hb : (missingFields m).isEmpty with
      | false => rfl
      | true => exact absurd hb hempty
    have hAD := collectAfterDate_eq_missing env closing cs m hef
    rw [hAD]
    exact (collect_stable env std closing cs m t hany hstable hdok).trans hAD

theorem collect_some_idem (env : Env) (std : String → Except String String)
    (closing : String) (cs : ChatSession) (md0 : MoveDetail) (t : String)
    (hany : (truthy (env.extract_fields t).origin ||
      truthy (env.extract_fields t).destination ||
      truthy (env.extract_fields t).move_size ||
      truthy (env.extract_fields t).move_date) = true) :
    collect_or_update_move_details env std closing
      (collect_or_update_move_details env std closing cs (some md0) t).session
      (collect_or_update_move_details env std closing cs (some md0) t).detail t =
    collect_or_update_move_details env std closing cs (some md0) t := by
  by_cases htr : truthy (env.extract_fields t).move_date = true
  · cases hv : std ((env.extract_fields t).move_date.getD "") with
    | error err =>
      have r1eq : collect_or_update_move_details env std closing cs (some md0) t =
          { session := cs,
            detail := some (applyExtract (env.extract_fields t) md0),
            any_new_info := true, did_estimate := false,
            reply := some (err ++ " Please provide a valid future date."),
            pricing_calls := 0 } := by
        unfold collect_or_update_move_details
        dsimp only
        simp only [hany, Bool.not_true, Bool.false_eq_true, if_false]
        simp only [htr, if_true, hv]
      rw [r1eq]
      unfold collect_or_update_move_details
      dsimp only
      simp only [hany, Bool.not_true, Bool.false_eq_true, if_false]
      simp only [htr, if_true, hv, applyExtract_idem]
    | ok v =>
      have r1eq : collect_or_update_move_details env std closing cs (some md0) t =
          collectAfterDate env closing
            { cs with move_date := some v }
            { applyExtract (env.extract_fields t) md0 with move_date := some v } := by
        unfold collect_or_update_move_details
        dsimp only
        simp only [hany, Bool.not_true, Bool.false_eq_true, if_false]
        simp only [htr, if_true, hv]
      rw [r1eq]
      exact collect_after_cAD env std closing _ _ t hany
        (by rw [applyExtract_move_date_comm, applyExtract_idem])
        (fun _ => ⟨v, hv, rfl, rfl⟩)
  · have htrf : truthy (env.extract_fields t).move_date = false := by
      cases hb : truthy (env.extract_fields t).move_date with
      | false => rfl
      | true => exact absurd hb htr
    have r1eq : collect_or_update_move_details env std closing cs (some md0) t =
        collectAfterDate env closing cs (applyExtract (env.extract_fields t) md0) := by
      unfold collect_or_update_move_details
      dsimp only
      simp only [hany, Bool.not_true, Bool.false_eq_true, if_false]
      simp only [htrf, Bool.false_eq_true, if_false]
    rw [r1eq]
    exact collect_after_cAD env std closing _ _ t hany
      (applyExtract_idem _ _)
      (fun htr2 => absurd htr2 htr)

theorem collect_none_eq_fresh (env : Env) (std : String → Except String String)
    (closing : String) (cs : ChatSession) (t : String)
    (hany : (truthy (env.extract_fields t).origin ||
      truthy (env.extract_fields t).destination ||
      truthy (env.extract_fields t).move_size ||
      truthy (env.extract_fields t).move_date) = true) :
    collect_or_update_move_details env std closing cs none t =
      collect_or_update_move_details env std closing cs
        (some { chat_id := cs.chat_id }) t := by
  unfold collect_or_update_move_details
  dsimp only
  simp only [hany, Bool.not_true, Bool.false_eq_true, if_false]

/-- C9: slot filling is idempotent. Re-running the collect routine with the same
utterance — so the extractor returns the same non-null values that were just
accepted and stored — on the session row and MoveDetail it produced returns
exactly the same output: the rows are unchanged and the reply, in particular the
missing-fields prompt content, is identical to the one produced when the values
were first accepted. -/
theorem C9_idempotence (env : Env) (std : String → Except String String)
    (closing : String) (cs : ChatSession) (det : Option MoveDetail) (t : String) :
    collect_or_update_move_details env std closing
      (collect_or_update_move_details env std closing cs det t).session
      (collect_or_update_move_details env std closing cs det t).detail t =
    collect_or_update_move_details env std closing cs det t := by
  by_cases hany : (truthy (env.extract_fields t).origin ||
      truthy (env.extract_fields t).destination ||
      truthy (env.extract_fields t).move_size ||
      truthy (env.extract_fields t).move_date) = true
  · cases det with
    | none =>
      rw [collect_none_eq_fresh env std closing cs t hany]
      exact collect_some_idem env std closing cs { chat_id := cs.chat_id } t hany
    | some md0 => exact collect_some_idem env std closing cs md0 t hany
  · have hany2 : (truthy (env.extract_fields t).origin ||
        truthy (env.extract_fields t).destination ||
        truthy (env.extract_fields t).move_size ||
        truthy (env.extract_fields t).move_date) = false := by
      cases hb : (truthy (env.extract_fields t).origin ||
          truthy (env.extract_fields t).destination ||
          truthy (env.extract_fields t).move_size ||
          truthy (env.extract_fields t).move_date) with
      | false => rfl
      | true => exact absurd hb hany
    have h := collect_no_info env std closing cs det t hany2
    rw [h]
    exact collect_no_info env std closing cs det t hany2
